import Mathlib

/-!
Verification development for the NewsFlow feed-aggregation bot.

The repository layer (SQLAlchemy over a relational store), the feed fetcher,
the feed/subscription services, the dispatcher and the cached translation
service are shallowly embedded as pure Lean functions over an explicit
database state.  Tables are lists of rows; SQL `UPDATE ... WHERE id = _`
statements become maps over the row list; autoincrement primary keys are
modelled by `next_*_id` counters; `datetime.now(timezone.utc)` becomes an
explicit `now : Nat` argument; network I/O (HTTP fetches, adapter sends,
translation providers) becomes explicit function-valued inputs.
-/

set_option linter.unusedVariables false
set_option linter.unnecessarySeqFocus false

namespace NewsFlow

/-- Python truthiness of an optional string (`if s:`): `None` and the empty
string are falsy. -/
def truthyS : Option String → Bool
  | some s => s ≠ ""
  | none => false

/-- Row of the `feeds` table (`newsflow/models/feed.py`, class `Feed`). -/
structure Feed where
  id : Nat
  url : String
  title : Option String := none
  description : Option String := none
  site_url : Option String := none
  is_active : Bool := true
  error_count : Nat := 0
  last_error : Option String := none
  etag : Option String := none
  last_modified : Option String := none
  last_fetched_at : Option Nat := none
  last_successful_fetch_at : Option Nat := none
deriving Repr, DecidableEq

/-- `Feed.mark_success`: reset error state, stamp fetch times, and keep the
stored validators unless truthy new ones are supplied (`if etag: ...`). -/
def Feed.mark_success (f : Feed) (now : Nat) (etag last_modified : Option String) : Feed :=
  { f with
    last_fetched_at := some now
    last_successful_fetch_at := some now
    error_count := 0
    last_error := none
    etag := if truthyS etag then etag else f.etag
    last_modified := if truthyS last_modified then last_modified else f.last_modified }

/-- `Feed.mark_error`: stamp the fetch time, increment `error_count`, record
the error, and deactivate once `error_count` reaches 10. -/
def Feed.mark_error (f : Feed) (now : Nat) (error : String) : Feed :=
  let f' := { f with
    last_fetched_at := some now
    error_count := f.error_count + 1
    last_error := some error }
  if f'.error_count ≥ 10 then { f' with is_active := false } else f'

/-- Row of the `feed_entries` table (`newsflow/models/feed.py`, class
`FeedEntry`).  `published_at` and `created_at` are UTC instants modelled as
naturals. -/
structure FeedEntry where
  id : Nat
  feed_id : Nat
  guid : String
  title : String
  link : String
  summary : Option String := none
  content : Option String := none
  author : Option String := none
  published_at : Option Nat := none
  image_url : Option String := none
  title_translated : Option String := none
  summary_translated : Option String := none
  translation_language : Option String := none
  is_sent : Bool := false
  created_at : Nat := 0
deriving Repr, DecidableEq

/-- Row of the `subscriptions` table (`newsflow/models/subscription.py`). -/
structure Subscription where
  id : Nat
  platform : String
  platform_user_id : String
  platform_channel_id : String
  platform_guild_id : Option String := none
  feed_id : Nat
  is_active : Bool := true
  translate : Bool := true
  target_language : String := "zh-CN"
  show_summary : Bool := true
  show_image : Bool := true
deriving Repr, DecidableEq

/-- Row of the `sent_entries` table (`newsflow/models/subscription.py`, class
`SentEntry`): the per-subscription delivery receipt. -/
structure SentEntry where
  subscription_id : Nat
  entry_id : Nat
  sent_at : Nat := 0
deriving Repr, DecidableEq

/-- The database state: one list per table plus autoincrement counters. -/
structure DB where
  feeds : List Feed := []
  entries : List FeedEntry := []
  subscriptions : List Subscription := []
  sent_entries : List SentEntry := []
  next_feed_id : Nat := 1
  next_entry_id : Nat := 1
  next_subscription_id : Nat := 1
deriving Repr

/-! ### Feed repository (`newsflow/repositories/feed_repository.py`) -/

/-- `FeedRepository.get_feed_by_id`. -/
def get_feed_by_id (db : DB) (feed_id : Nat) : Option Feed :=
  db.feeds.find? (fun f => f.id == feed_id)

/-- `FeedRepository.get_feed_by_url`. -/
def get_feed_by_url (db : DB) (url : String) : Option Feed :=
  db.feeds.find? (fun f => f.url == url)

/-- `FeedRepository.get_all_active_feeds`. -/
def get_all_active_feeds (db : DB) : List Feed :=
  db.feeds.filter (fun f => f.is_active)

/-- `FeedRepository.create_feed`: insert a new `Feed` row and return it. -/
def create_feed (db : DB) (url : String)
    (title description site_url : Option String) : DB × Feed :=
  let f : Feed := { id := db.next_feed_id, url := url, title := title,
                    description := description, site_url := site_url }
  ({ db with feeds := db.feeds ++ [f], next_feed_id := db.next_feed_id + 1 }, f)

/-- `FeedRepository.update_feed_metadata`: stamp both fetch timestamps, clear
the error state, and overwrite `title`/`description`/`etag`/`last_modified`
only when the supplied value is truthy (`if title: ...` etc.). -/
def update_feed_metadata (db : DB) (feed_id : Nat) (now : Nat)
    (title description etag last_modified : Option String) : DB :=
  { db with feeds := db.feeds.map (fun f =>
      if f.id == feed_id then
        { f with
          last_fetched_at := some now
          last_successful_fetch_at := some now
          error_count := 0
          last_error := none
          title := if truthyS title then title else f.title
          description := if truthyS description then description else f.description
          etag := if truthyS etag then etag else f.etag
          last_modified := if truthyS last_modified then last_modified else f.last_modified }
      else f) }

/-- `FeedRepository.mark_feed_error`: look the feed up by id and apply
`Feed.mark_error` to it (feed ids are unique, so the map touches one row). -/
def mark_feed_error (db : DB) (feed_id : Nat) (now : Nat) (error : String) : DB :=
  { db with feeds := db.feeds.map (fun f =>
      if f.id == feed_id then f.mark_error now error else f) }

/-- `FeedRepository.get_entry_by_guid`: lookup by `(feed_id, guid)`. -/
def get_entry_by_guid (db : DB) (feed_id : Nat) (guid : String) : Option FeedEntry :=
  db.entries.find? (fun e => e.feed_id == feed_id && e.guid == guid)

/-- The entry fields handed to `FeedRepository.create_entries_bulk` (the
normalized dicts produced by `FeedFetcher._parse_entry`). -/
structure EntryData where
  guid : String
  title : String
  link : String
  summary : Option String := none
  content : Option String := none
  author : Option String := none
  published_at : Option Nat := none
  image_url : Option String := none
deriving Repr, DecidableEq

/-- `FeedRepository.create_entry`: insert a new `FeedEntry` row. -/
def create_entry (db : DB) (feed_id : Nat) (d : EntryData) : DB × FeedEntry :=
  let e : FeedEntry := { id := db.next_entry_id, feed_id := feed_id, guid := d.guid,
                         title := d.title, link := d.link, summary := d.summary,
                         content := d.content, author := d.author,
                         published_at := d.published_at, image_url := d.image_url }
  ({ db with entries := db.entries ++ [e], next_entry_id := db.next_entry_id + 1 }, e)

/-- `FeedRepository.create_entries_bulk`: walk the batch in order, skip any
record whose `(feed_id, guid)` already exists (the flush inside
`create_entry` makes earlier batch members visible to the lookup), and return
the list of newly created rows. -/
def create_entries_bulk : DB → Nat → List EntryData → DB × List FeedEntry
  | db, _, [] => (db, [])
  | db, feed_id, d :: rest =>
    match get_entry_by_guid db feed_id d.guid with
    | some _ => create_entries_bulk db feed_id rest
    | none =>
      let p := create_entry db feed_id d
      let q := create_entries_bulk p.1 feed_id rest
      (q.1, p.2 :: q.2)

/-- `FeedRepository.update_entry_translation`: set the three translation-cache
columns on the entry with the given id. -/
def update_entry_translation (db : DB) (entry_id : Nat)
    (title_translated summary_translated language : String) : DB :=
  { db with entries := db.entries.map (fun e =>
      if e.id == entry_id then
        { e with
          title_translated := some title_translated
          summary_translated := some summary_translated
          translation_language := some language }
      else e) }

/-- `FeedRepository.cleanup_old_entries` (janitor): delete entries whose
`created_at` lies before the cutoff. -/
def cleanup_old_entries (db : DB) (cutoff : Nat) : DB :=
  { db with entries := db.entries.filter (fun e => !(e.created_at < cutoff)) }

/-! ### Subscription repository (`newsflow/repositories/subscription_repository.py`) -/

/-- `SubscriptionRepository.get_subscription_by_id`. -/
def get_subscription_by_id (db : DB) (subscription_id : Nat) : Option Subscription :=
  db.subscriptions.find? (fun s => s.id == subscription_id)

/-- `SubscriptionRepository.get_subscription`: lookup by
`(platform, platform_channel_id, feed_id)`. -/
def get_subscription (db : DB) (platform channel_id : String) (feed_id : Nat) :
    Option Subscription :=
  db.subscriptions.find? (fun s =>
    s.platform == platform && s.platform_channel_id == channel_id && s.feed_id == feed_id)

/-- `SubscriptionRepository.get_channel_subscriptions`: the active
subscriptions of one `(platform, channel)`. -/
def get_channel_subscriptions (db : DB) (platform channel_id : String) :
    List Subscription :=
  db.subscriptions.filter (fun s =>
    s.platform == platform && s.platform_channel_id == channel_id && s.is_active)

/-- `SubscriptionRepository.get_all_active_subscriptions`. -/
def get_all_active_subscriptions (db : DB) : List Subscription :=
  db.subscriptions.filter (fun s => s.is_active)

/-- `SubscriptionRepository.create_subscription` with its default preferences
(`translate = True`, `target_language = "zh-CN"`). -/
def create_subscription (db : DB) (platform user_id channel_id : String)
    (feed_id : Nat) (guild_id : Option String) : DB × Subscription :=
  let s : Subscription := { id := db.next_subscription_id, platform := platform,
                            platform_user_id := user_id,
                            platform_channel_id := channel_id,
                            platform_guild_id := guild_id, feed_id := feed_id }
  ({ db with subscriptions := db.subscriptions ++ [s],
             next_subscription_id := db.next_subscription_id + 1 }, s)

/-- `SubscriptionRepository.get_or_create_subscription`: return the existing
row (reactivating it when inactive) with `created = false`, else insert a new
row with `created = true`. -/
def get_or_create_subscription (db : DB) (platform user_id channel_id : String)
    (feed_id : Nat) (guild_id : Option String) : DB × Subscription × Bool :=
  match get_subscription db platform channel_id feed_id with
  | some existing =>
    if !existing.is_active then
      let reactivated := { existing with is_active := true }
      ({ db with subscriptions := db.subscriptions.map (fun s =>
           if s.id == existing.id then { s with is_active := true } else s) },
       reactivated, false)
    else (db, existing, false)
  | none =>
    let p := create_subscription db platform user_id channel_id feed_id guild_id
    (p.1, p.2, true)

/-- `SubscriptionRepository.update_subscription_settings`: build the update
dict from the non-`None` arguments; an empty dict issues no UPDATE at all. -/
def update_subscription_settings (db : DB) (subscription_id : Nat)
    (translate : Option Bool) (target_language : Option String)
    (show_summary show_image : Option Bool) : DB :=
  if translate.isNone && target_language.isNone
      && show_summary.isNone && show_image.isNone then db
  else
    { db with subscriptions := db.subscriptions.map (fun s =>
        if s.id == subscription_id then
          { s with
            translate := translate.getD s.translate
            target_language := target_language.getD s.target_language
            show_summary := show_summary.getD s.show_summary
            show_image := show_image.getD s.show_image }
        else s) }

/-- `SubscriptionRepository.count_channel_subscriptions`: SQL `COUNT` over the
same `WHERE` clause as `get_channel_subscriptions`. -/
def count_channel_subscriptions (db : DB) (platform channel_id : String) : Nat :=
  (get_channel_subscriptions db platform channel_id).length

/-- `SubscriptionRepository.is_entry_sent`: membership in the receipt table. -/
def is_entry_sent (db : DB) (subscription_id entry_id : Nat) : Bool :=
  db.sent_entries.any (fun s =>
    s.subscription_id == subscription_id && s.entry_id == entry_id)

/-- `SubscriptionRepository.mark_entry_sent`: insert a `SentEntry` receipt. -/
def mark_entry_sent (db : DB) (subscription_id entry_id : Nat) (now : Nat) : DB :=
  { db with sent_entries := db.sent_entries ++
      [{ subscription_id := subscription_id, entry_id := entry_id, sent_at := now }] }

/-- The comparison realised by `ORDER BY published_at DESC NULLS LAST`:
`a` may precede `b` when both are dated and `a` is at least as recent, or
when `b` is undated. -/
def pubDescNullsLast (a b : Option Nat) : Bool :=
  match a, b with
  | some x, some y => decide (y ≤ x)
  | some _, none => true
  | none, some _ => false
  | none, none => true

/-- The row ordering of the dispatch query, as a binary relation on
`FeedEntry`. -/
def entryOrder (a b : FeedEntry) : Prop :=
  pubDescNullsLast a.published_at b.published_at = true

instance : DecidableRel entryOrder := fun a b =>
  inferInstanceAs (Decidable (pubDescNullsLast a.published_at b.published_at = true))

instance : IsTotal FeedEntry entryOrder := by
  constructor
  intro a b
  unfold entryOrder pubDescNullsLast
  cases a.published_at <;> cases b.published_at <;> simp <;> omega

instance : IsTrans FeedEntry entryOrder := by
  constructor
  intro a b c
  unfold entryOrder pubDescNullsLast
  cases a.published_at <;> cases b.published_at <;> cases c.published_at <;> simp <;> omega

/-- `SubscriptionRepository.get_unsent_entries_for_subscription`: for a known
subscription, the entries of its feed that carry no receipt for it, ordered
by `published_at` descending with NULLs last, truncated to `limit` (the SQL
engine may break ties arbitrarily; the model fixes the stable insertion-sort
refinement of that order).  An unknown subscription id yields `[]`. -/
def get_unsent_entries_for_subscription (db : DB) (subscription_id limit : Nat) :
    List FeedEntry :=
  match get_subscription_by_id db subscription_id with
  | none => []
  | some sub =>
    let unsent := db.entries.filter (fun e =>
      e.feed_id == sub.feed_id && !(is_entry_sent db subscription_id e.id))
    (List.insertionSort entryOrder unsent).take limit

/-- `SubscriptionRepository.cleanup_old_sent_entries` (janitor): delete
receipts whose `sent_at` lies before the cutoff. -/
def cleanup_old_sent_entries (db : DB) (cutoff : Nat) : DB :=
  { db with sent_entries := db.sent_entries.filter (fun s => !(s.sent_at < cutoff)) }

/-! ### Feed fetcher (`newsflow/core/feed_fetcher.py`) -/

/-- What `feedparser.parse` extracts from a 2xx body: the bozo flag and
exception text, the normalized entry records (the output of
`FeedFetcher._parse_entry` on each raw entry) and the feed-level metadata. -/
structure ParsedFeed where
  bozo : Bool
  bozo_exception : String
  entries : List EntryData
  feed_title : Option String := none
  feed_description : Option String := none
  feed_link : Option String := none
deriving Repr, DecidableEq

/-- One observable outcome of the HTTP GET inside `FeedFetcher._do_fetch`:
either a status-coded response (with its parsed body and fresh validator
headers) or one of the three caught exception classes. -/
inductive NetResponse where
  | status (code : Nat) (reason : String) (parsed : ParsedFeed)
      (etag last_modified : Option String)
  | timeout
  | clientError (msg : String)
  | unexpectedError (msg : String)
deriving Repr, DecidableEq

/-- `FetchResult` (`feed_fetcher.py`): outcome of fetching one feed. -/
structure FetchResult where
  url : String
  success : Bool
  entries : List EntryData
  etag : Option String := none
  last_modified : Option String := none
  feed_title : Option String := none
  feed_description : Option String := none
  feed_link : Option String := none
  error : Option String := none
  not_modified : Bool := false
deriving Repr, DecidableEq

/-- `FeedFetcher._do_fetch`: 304 echoes the prior validators with no entries;
status ≥ 400 fails with an HTTP error; a bozo parse with no entries fails
with a parse error; otherwise the parsed entries and the response headers are
returned.  The caught exception classes map to their error strings. -/
def do_fetch (url : String) (etag last_modified : Option String)
    (resp : NetResponse) : FetchResult :=
  match resp with
  | .status code reason parsed new_etag new_last_modified =>
    if code == 304 then
      { url := url, success := true, entries := [], not_modified := true,
        etag := etag, last_modified := last_modified }
    else if code ≥ 400 then
      { url := url, success := false, entries := [],
        error := some ("HTTP " ++ toString code ++ ": " ++ reason) }
    else if parsed.bozo && parsed.entries.isEmpty then
      { url := url, success := false, entries := [],
        error := some ("Parse error: " ++ parsed.bozo_exception) }
    else
      { url := url, success := true, entries := parsed.entries,
        etag := new_etag, last_modified := new_last_modified,
        feed_title := parsed.feed_title,
        feed_description := parsed.feed_description,
        feed_link := parsed.feed_link }
  | .timeout =>
    { url := url, success := false, entries := [], error := some "Request timeout" }
  | .clientError msg =>
    { url := url, success := false, entries := [],
      error := some ("Network error: " ++ msg) }
  | .unexpectedError msg =>
    { url := url, success := false, entries := [],
      error := some ("Unexpected error: " ++ msg) }

/-! ### Feed service (`newsflow/services/feed_service.py`) -/

/-- `AddFeedResult`. -/
structure AddFeedResult where
  success : Bool
  feed : Option Feed := none
  message : String := ""
  entry_count : Nat := 0
deriving Repr, DecidableEq

/-- `FeedService.add_feed`: reuse an existing row by URL, else fetch the URL
(with no validators), reject failures and empty feeds, and otherwise create
the feed row, store its response validators and bulk-insert its entries. -/
def add_feed (db : DB) (url : String) (now : Nat) (resp : NetResponse) :
    DB × AddFeedResult :=
  match get_feed_by_url db url with
  | some existing =>
    (db, { success := true, feed := some existing, message := "Feed already exists" })
  | none =>
    let result := do_fetch url none none resp
    if !result.success then
      (db, { success := false,
             message := "Failed to fetch feed: " ++ result.error.getD "" })
    else if result.entries.isEmpty then
      (db, { success := false, message := "Feed has no entries" })
    else
      let p := create_feed db url result.feed_title result.feed_description
                 result.feed_link
      let db2 := update_feed_metadata p.1 p.2.id now none none
                   result.etag result.last_modified
      let q := create_entries_bulk db2 p.2.id result.entries
      (q.1, { success := true, feed := some p.2,
              message := "Feed added with " ++ toString q.2.length ++ " entries",
              entry_count := q.2.length })

/-- `FetchFeedResult` (`feed_service.py`): per-feed outcome of one refresh. -/
structure FetchFeedResult where
  success : Bool
  feed_id : Nat
  new_entries : List FeedEntry := []
  message : String := ""
deriving Repr, DecidableEq

/-- `FeedService.fetch_and_store`: fetch with the stored validators; on
failure record the error on the feed; on 304 refresh only the fetch
timestamps and error state; otherwise refresh the metadata and validators
and bulk-insert the fetched entries. -/
def fetch_and_store (db : DB) (feed : Feed) (now : Nat) (resp : NetResponse) :
    DB × FetchFeedResult :=
  let result := do_fetch feed.url feed.etag feed.last_modified resp
  if !result.success then
    (mark_feed_error db feed.id now (result.error.getD ""),
     { success := false, feed_id := feed.id,
       message := "Fetch error: " ++ result.error.getD "" })
  else if result.not_modified then
    (update_feed_metadata db feed.id now none none none none,
     { success := true, feed_id := feed.id, message := "Not modified" })
  else
    let db1 := update_feed_metadata db feed.id now result.feed_title
                 result.feed_description result.etag result.last_modified
    if !result.entries.isEmpty then
      let q := create_entries_bulk db1 feed.id result.entries
      (q.1, { success := true, feed_id := feed.id, new_entries := q.2,
              message := toString q.2.length ++ " new entries" })
    else
      (db1, { success := true, feed_id := feed.id, message := "No new entries" })

/-- One iteration of the loop in `FeedService.fetch_all_feeds`. -/
def fetch_step (now : Nat) (net : Feed → NetResponse)
    (acc : DB × List FetchFeedResult) (f : Feed) : DB × List FetchFeedResult :=
  let p := fetch_and_store acc.1 f now (net f)
  (p.1, acc.2 ++ [p.2])

/-- `FeedService.fetch_all_feeds`: refresh every active feed in turn, against
a `net` oracle giving each feed its HTTP outcome for this cycle. -/
def fetch_all_feeds (db : DB) (now : Nat) (net : Feed → NetResponse) :
    DB × List FetchFeedResult :=
  (get_all_active_feeds db).foldl (fetch_step now net) (db, [])

/-! ### Subscription service (`newsflow/services/subscription_service.py`) -/

/-- Quota-relevant part of `Settings` (`newsflow/config.py`):
`max_feeds_per_channel = 0` means unlimited. -/
structure Settings where
  max_feeds_per_channel : Nat := 0
deriving Repr, DecidableEq

/-- `SubscribeResult`. -/
structure SubscribeResult where
  success : Bool
  subscription : Option Subscription := none
  feed : Option Feed := none
  message : String := ""
  is_new : Bool := false
deriving Repr, DecidableEq

/-- The part of `SubscriptionService.subscribe` after the quota gate: add or
fetch the feed, then create or fetch the subscription.  (`add_feed` always
carries a feed on success, so the `none` fallback below is unreachable; it
mirrors the `AttributeError` a missing feed would raise.) -/
def subscribe_core (db : DB) (platform user_id channel_id feed_url : String)
    (guild_id : Option String) (now : Nat) (resp : NetResponse) :
    DB × SubscribeResult :=
  let p := add_feed db feed_url now resp
  if !p.2.success then
    (p.1, { success := false, message := p.2.message })
  else
    match p.2.feed with
    | none => (p.1, { success := false, message := p.2.message })
    | some feed =>
      let q := get_or_create_subscription p.1 platform user_id channel_id
                 feed.id guild_id
      if !q.2.2 then
        (q.1, { success := true, subscription := some q.2.1, feed := some feed,
                message := "Already subscribed to this feed", is_new := false })
      else
        (q.1, { success := true, subscription := some q.2.1, feed := some feed,
                message := "Subscribed to " ++
                  (if truthyS feed.title then feed.title.getD "" else feed_url),
                is_new := true })

/-- `SubscriptionService.subscribe`: the quota check runs first; when
`max_feeds_per_channel > 0` and the channel already holds at least that many
active subscriptions the call is refused before any other work. -/
def subscribe (settings : Settings) (db : DB)
    (platform user_id channel_id feed_url : String) (guild_id : Option String)
    (now : Nat) (resp : NetResponse) : DB × SubscribeResult :=
  if settings.max_feeds_per_channel > 0 then
    if count_channel_subscriptions db platform channel_id ≥
        settings.max_feeds_per_channel then
      (db, { success := false,
             message := "Maximum feeds (" ++ toString settings.max_feeds_per_channel
               ++ ") reached" })
    else subscribe_core db platform user_id channel_id feed_url guild_id now resp
  else subscribe_core db platform user_id channel_id feed_url guild_id now resp

/-- `SubscriptionService.update_settings`: load the channel subscriptions
(with their feeds, eagerly, from the state at query time); an empty list
returns `false`; otherwise every subscription not excluded by a truthy
`feed_url` filter is updated and the call returns `true`.  A subscription
whose feed row is absent (impossible under the FK) is skipped. -/
def update_settings (db : DB) (platform channel_id : String)
    (feed_url : Option String) (translate : Option Bool)
    (target_language : Option String) : DB × Bool :=
  let subs := get_channel_subscriptions db platform channel_id
  if subs.isEmpty then (db, false)
  else
    (subs.foldl
      (fun acc sub =>
        if truthyS feed_url &&
            ((get_feed_by_id db sub.feed_id).map (fun f => f.url) != feed_url) then
          acc
        else
          update_subscription_settings acc sub.id translate target_language
            none none)
      db,
     true)

/-! ### Translation layer (`newsflow/services/translation/base.py`,
`newsflow/services/cache.py`) -/

/-- `TranslationResult`. -/
structure TranslationResult where
  success : Bool
  translated_text : String := ""
  source_language : Option String := none
  error : Option String := none
  from_cache : Bool := false
deriving Repr, DecidableEq

/-- One slot of the in-memory cache: key, value and optional absolute expiry
instant. -/
structure CacheSlot where
  key : String
  value : String
  expires_at : Option Nat
deriving Repr, DecidableEq

/-- `MemoryCache` (`cache.py`): an `OrderedDict` is modelled as a list of
slots in recency order, least recently used first.  Keys are unique because
`set` always deletes the key before inserting it. -/
structure MemoryCache where
  max_size : Nat
  slots : List CacheSlot
deriving Repr, DecidableEq

/-- `MemoryCache.get` at instant `t`: a missing key yields `none`; an expired
slot is deleted and yields `none`; a live slot is moved to the
most-recently-used end and its value returned.  (`set` never stores an
`expires_at` of 0, so Python's truthiness test on the expiry reduces to the
`some`/`none` split.) -/
def MemoryCache.get (c : MemoryCache) (t : Nat) (key : String) :
    Option String × MemoryCache :=
  match c.slots.find? (fun s => s.key == key) with
  | none => (none, c)
  | some slot =>
    match slot.expires_at with
    | some e =>
      if t > e then
        (none, { c with slots := c.slots.filter (fun s => !(s.key == key)) })
      else
        (some slot.value,
         { c with slots := c.slots.filter (fun s => !(s.key == key)) ++ [slot] })
    | none =>
      (some slot.value,
       { c with slots := c.slots.filter (fun s => !(s.key == key)) ++ [slot] })

/-- The eviction loop of `MemoryCache.set`: pop the least recently used slot
while the cache is at or above capacity. -/
def evictOldest (max_size : Nat) : List CacheSlot → List CacheSlot
  | [] => []
  | x :: xs =>
    if xs.length + 1 ≥ max_size then evictOldest max_size xs else x :: xs

/-- `MemoryCache.set` at instant `t`: a truthy `ttl` fixes the expiry at
`t + ttl`; the key is deleted first (refreshing its recency), the oldest
slots are evicted down to below capacity, and the new slot is appended. -/
def MemoryCache.set (c : MemoryCache) (t : Nat) (key value : String)
    (ttl : Option Nat) : MemoryCache :=
  let expires_at : Option Nat :=
    match ttl with
    | some n => if n ≠ 0 then some (t + n) else none
    | none => none
  let slots := c.slots.filter (fun s => !(s.key == key))
  { c with slots := evictOldest c.max_size slots ++
      [{ key := key, value := value, expires_at := expires_at }] }

/-- `TranslationService` (`translation/base.py`): a provider (modelled as a
pure function of text, target language and optional source language), an
optional memory cache and the cache TTL.  `text_hash` stands for the
`sha256(text)[:16]` digest used in `_cache_key`; it is kept abstract since
only its determinism matters here. -/
structure TranslationService where
  provider_name : String
  provider : String → String → Option String → TranslationResult
  text_hash : String → String
  cache : Option MemoryCache
  cache_ttl : Nat

/-- `TranslationService._cache_key`. -/
def TranslationService.cache_key (svc : TranslationService)
    (text target_lang : String) : String :=
  "trans:" ++ svc.provider_name ++ ":" ++ target_lang ++ ":" ++ svc.text_hash text

/-- The provider branch of `TranslationService.translate`: call the provider
and, on success with a configured cache and a non-empty translation, store
the text under the cache key with the service TTL. -/
def TranslationService.call_provider (svc : TranslationService) (t : Nat)
    (text target_lang : String) (source_lang : Option String) :
    TranslationResult × TranslationService :=
  let r := svc.provider text target_lang source_lang
  if r.success && svc.cache.isSome && r.translated_text ≠ "" then
    (r, { svc with cache := svc.cache.map (fun c =>
            c.set t (svc.cache_key text target_lang) r.translated_text
              (some svc.cache_ttl)) })
  else (r, svc)

/-- Whether `str.strip()` of the string is empty: every character is
whitespace (an empty string is blank too). -/
def isBlank (s : String) : Bool := s.data.all (fun c => c.isWhitespace)

/-- `TranslationService.translate` at instant `t`: empty or whitespace-only
input (`if not text or not text.strip():`) short-circuits to an empty
success; a truthy cached value is returned with `from_cache = true`;
otherwise the provider is called and its successful non-empty output
cached. -/
def TranslationService.translate (svc : TranslationService) (t : Nat)
    (text target_lang : String) (source_lang : Option String) :
    TranslationResult × TranslationService :=
  if text == "" || isBlank text then
    ({ success := true, translated_text := "" }, svc)
  else
    match svc.cache with
    | some c =>
      let p := c.get t (svc.cache_key text target_lang)
      let svc1 := { svc with cache := some p.2 }
      match p.1 with
      | some cached =>
        if cached ≠ "" then
          ({ success := true, translated_text := cached, from_cache := true }, svc1)
        else svc1.call_provider t text target_lang source_lang
      | none => svc1.call_provider t text target_lang source_lang
    | none => svc.call_provider t text target_lang source_lang

/-! ### Dispatcher (`newsflow/services/dispatcher.py`)

The registered adapters are a partial map from platform name to a
`send_message` function; the translation service obtained from
`get_translation_service()` is modelled as an optional pure
text-and-target translation function (its internal cache state is not
observable through the dispatcher); `get_source_name` from
`newsflow/core/content_processor.py` is passed in as an opaque
link-and-language display-name function, since no dispatched receipt depends
on it. -/

/-- `Message` (`newsflow/adapters/base.py`): the platform-agnostic payload. -/
structure Message where
  title : String
  summary : String
  link : String
  source : String
  published_at : Option Nat := none
  image_url : Option String := none
  title_translated : Option String := none
  summary_translated : Option String := none
deriving Repr, DecidableEq

/-- `Dispatcher._translate_entry`: reuse the entry's cached translation when
it targets the same language and has a truthy title; otherwise, with a
configured service, translate the title and the (1000-character-truncated)
summary, and write any truthy result back to the entry row. -/
def dispatcher_translate_entry (db : DB) (e : FeedEntry) (target_language : String)
    (svc : Option (String → String → TranslationResult)) :
    DB × Option String × Option String :=
  if e.translation_language == some target_language && truthyS e.title_translated then
    (db, e.title_translated, e.summary_translated)
  else
    match svc with
    | none => (db, none, none)
    | some tr =>
      let title_t : Option String :=
        if e.title ≠ "" then
          let r := tr e.title target_language
          if r.success then some r.translated_text else none
        else none
      let summary_t : Option String :=
        match e.summary with
        | some s =>
          if s ≠ "" then
            let r := tr (s.take 1000) target_language
            if r.success then some r.translated_text else none
          else none
        | none => none
      let db' :=
        if truthyS title_t || truthyS summary_t then
          update_entry_translation db e.id (title_t.getD "") (summary_t.getD "")
            target_language
        else db
      (db', title_t, summary_t)

/-- `Dispatcher._create_message`: pick the source-name language from the
target language, translate when the subscription asks for it, and assemble
the `Message`. -/
def create_message (db : DB) (e : FeedEntry) (sub : Subscription)
    (svc : Option (String → String → TranslationResult))
    (source_name : String → String → String) : DB × Message :=
  let lang := if sub.target_language.startsWith "zh" then "zh" else "en"
  let source := source_name e.link lang
  let p :=
    if sub.translate then dispatcher_translate_entry db e sub.target_language svc
    else (db, e.title_translated, e.summary_translated)
  (p.1, { title := e.title, summary := e.summary.getD "", link := e.link,
          source := source, published_at := e.published_at,
          image_url := e.image_url, title_translated := p.2.1,
          summary_translated := p.2.2 })

/-- One observed adapter call: which entry was sent to which subscription and
whether `send_message` acknowledged it. -/
structure SendEvent where
  subscription_id : Nat
  entry_id : Nat
  channel_id : String
  message : Message
  ok : Bool
deriving Repr, DecidableEq

/-- One iteration of the per-entry loop in
`Dispatcher._dispatch_to_subscription`: build the message, call the adapter,
and record a receipt exactly when it acknowledged. -/
def send_step (sub : Subscription) (send : String → Message → Bool)
    (svc : Option (String → String → TranslationResult))
    (source_name : String → String → String) (now : Nat)
    (acc : DB × Nat × List SendEvent) (e : FeedEntry) : DB × Nat × List SendEvent :=
  let p := create_message acc.1 e sub svc source_name
  let ok := send sub.platform_channel_id p.2
  let db' := if ok then mark_entry_sent p.1 sub.id e.id now else p.1
  (db', acc.2.1 + (if ok then 1 else 0),
   acc.2.2 ++ [{ subscription_id := sub.id, entry_id := e.id,
                 channel_id := sub.platform_channel_id,
                 message := p.2, ok := ok }])

/-- `Dispatcher._dispatch_to_subscription`: no adapter for the platform sends
nothing; otherwise the (at most 10) unsent entries are processed in query
order, a receipt being recorded exactly when `send_message` returns true.
Returns the state, the sent count and the adapter-call log. -/
def dispatch_to_subscription (db : DB) (sub : Subscription)
    (adapters : String → Option (String → Message → Bool))
    (svc : Option (String → String → TranslationResult))
    (source_name : String → String → String) (now : Nat) :
    DB × Nat × List SendEvent :=
  match adapters sub.platform with
  | none => (db, 0, [])
  | some send =>
    let entries := get_unsent_entries_for_subscription db sub.id 10
    entries.foldl (send_step sub send svc source_name now) (db, 0, [])

/-- `DispatchResult`. -/
structure DispatchResult where
  feeds_fetched : Nat := 0
  new_entries : Nat := 0
  messages_sent : Nat := 0
  errors : Nat := 0
deriving Repr, DecidableEq

/-- The collation loop of `Dispatcher.dispatch_once`: concatenate the new
entries of the successful fetch results. -/
def collect_new_entries (results : List FetchFeedResult) : List FeedEntry :=
  results.foldl
    (fun acc fr =>
      if fr.success && !fr.new_entries.isEmpty then acc ++ fr.new_entries else acc)
    []

/-- One iteration of the per-subscription loop in
`Dispatcher.dispatch_once`. -/
def subs_step (adapters : String → Option (String → Message → Bool))
    (svc : Option (String → String → TranslationResult))
    (source_name : String → String → String) (now : Nat)
    (acc : DB × Nat × List SendEvent) (sub : Subscription) :
    DB × Nat × List SendEvent :=
  let r := dispatch_to_subscription acc.1 sub adapters svc source_name now
  (r.1, acc.2.1 + r.2.1, acc.2.2 ++ r.2.2)

/-- `Dispatcher.dispatch_once`: fetch every active feed, collate the new
entries, and — only when at least one new entry was collected — fan out to
every active subscription and commit.  When nothing new was collected the
method returns before dispatching and before `session.commit()`, so closing
the session rolls the fetch phase back and the pre-cycle state persists. -/
def dispatch_once (db : DB) (now : Nat) (net : Feed → NetResponse)
    (adapters : String → Option (String → Message → Bool))
    (svc : Option (String → String → TranslationResult))
    (source_name : String → String → String) :
    DB × DispatchResult × List SendEvent :=
  let p := fetch_all_feeds db now net
  let new_entries := collect_new_entries p.2
  if new_entries.isEmpty then
    (db, { feeds_fetched := p.2.length, new_entries := 0 }, [])
  else
    let q := (get_all_active_subscriptions p.1).foldl
      (subs_step adapters svc source_name now) (p.1, 0, [])
    (q.1, { feeds_fetched := p.2.length, new_entries := new_entries.length,
            messages_sent := q.2.1 }, q.2.2)

/-! ### Concrete fixtures for witnesses and counterexamples -/

/-- A feed row as created by subscribing to one URL. -/
def exFeed : Feed := { id := 1, url := "http://example.org/rss" }

/-- An active subscription of channel 42 to `exFeed`, translation off. -/
def exSub : Subscription :=
  { id := 1, platform := "discord", platform_user_id := "u7",
    platform_channel_id := "42", feed_id := 1, translate := false }

/-- A database holding `exFeed` and `exSub` and no entries yet. -/
def exDB : DB :=
  { feeds := [exFeed], subscriptions := [exSub],
    next_feed_id := 2, next_entry_id := 1, next_subscription_id := 2 }

/-- One normalized upstream item. -/
def exData : EntryData :=
  { guid := "guid-a", title := "Item A", link := "http://example.org/a",
    published_at := some 100 }

/-- Cycle-1 network: the feed serves one item. -/
def netServesItem : Feed → NetResponse := fun _ =>
  .status 200 "OK"
    { bozo := false, bozo_exception := "", entries := [exData],
      feed_title := some "Example" }
    (some "etag-1") (some "lm-1")

/-- Cycle-2 network: the feed answers 304 Not Modified. -/
def netNotModified : Feed → NetResponse := fun _ =>
  .status 304 "Not Modified"
    { bozo := false, bozo_exception := "", entries := [] } none none

/-- An adapter registry whose discord adapter always refuses the send. -/
def failingAdapters : String → Option (String → Message → Bool) := fun p =>
  if p == "discord" then some (fun _ _ => false) else none

/-- No translation service configured. -/
def noSvc : Option (String → String → TranslationResult) := none

/-- A fixed source-name resolver. -/
def exSourceName : String → String → String := fun _ _ => "Example"

/-- Cycle 1: the item arrives, the adapter refuses it. -/
def exCycle1 : DB × DispatchResult × List SendEvent :=
  dispatch_once exDB 0 netServesItem failingAdapters noSvc exSourceName

/-- Cycle 2 (immediately after, nothing purged): upstream unchanged. -/
def exCycle2 : DB × DispatchResult × List SendEvent :=
  dispatch_once exCycle1.1 1 netNotModified failingAdapters noSvc exSourceName

/-! ## Theorems -/

/-- A feed that has accumulated nine consecutive errors. -/
def exFeed9 : Feed := { id := 9, url := "http://nine.example/rss", error_count := 9 }

/-- C4: every `mark_error` call increments `error_count` by one and records
the error; whenever the count reaches 10 the feed is deactivated; any
`mark_success` resets `error_count` to 0 and clears `last_error`, so k
consecutive `mark_error` calls followed by one `mark_success` leave
`error_count = 0`. -/
theorem feed_error_counter_spec (f : Feed) (now now2 : Nat) (err : String)
    (etag lm : Option String) (k : Nat) :
    ((f.mark_error now err).error_count = f.error_count + 1)
    ∧ ((f.mark_error now err).last_error = some err)
    ∧ ((f.mark_error now err).error_count ≥ 10 →
        (f.mark_error now err).is_active = false)
    ∧ ((f.mark_success now2 etag lm).error_count = 0
        ∧ (f.mark_success now2 etag lm).last_error = none)
    ∧ ((((fun g => Feed.mark_error g now err)^[k] f).mark_success now2 etag lm).error_count
        = 0) := by
  refine ⟨?_, ?_, ?_, ⟨rfl, rfl⟩, rfl⟩
  · simp only [Feed.mark_error]
    split <;> rfl
  · simp only [Feed.mark_error]
    split <;> rfl
  · simp only [Feed.mark_error]
    split
    · intro _
      rfl
    · intro h
      exact absurd h (by assumption)

/-- Witness for C4 at a feed with nine prior errors. -/
theorem feed_error_counter_spec_witness :
    ((exFeed9.mark_error 5 "boom").error_count ≥ 10)
    ∧ ((exFeed9.mark_error 5 "boom").error_count = exFeed9.error_count + 1)
    ∧ ((exFeed9.mark_error 5 "boom").is_active = false)
    ∧ ((((fun g => Feed.mark_error g 5 "boom")^[3] exFeed9).mark_success 6 none none).error_count
        = 0) := by
  refine ⟨by decide, (feed_error_counter_spec exFeed9 5 6 "boom" none none 3).1, ?_,
    (feed_error_counter_spec exFeed9 5 6 "boom" none none 3).2.2.2.2⟩
  exact (feed_error_counter_spec exFeed9 5 6 "boom" none none 3).2.2.1 (by decide)

/-- C5: an HTTP 304 yields a successful fetch result with no entries that
echoes the prior validators, and the subsequent metadata update changes only
the fetch timestamps and error state of the feed: its stored `etag` and
`last_modified` — and every other table — are left unchanged. -/
theorem not_modified_preserves_validators (db : DB) (f : Feed) (now : Nat)
    (reason : String) (parsed : ParsedFeed) (re rlm : Option String) :
    (do_fetch f.url f.etag f.last_modified (.status 304 reason parsed re rlm)
      = { url := f.url, success := true, entries := [], etag := f.etag,
          last_modified := f.last_modified, not_modified := true })
    ∧ ((fetch_and_store db f now (.status 304 reason parsed re rlm)).2
      = { success := true, feed_id := f.id, message := "Not modified" })
    ∧ ((fetch_and_store db f now (.status 304 reason parsed re rlm)).1.feeds
      = db.feeds.map (fun g =>
          if g.id == f.id then
            { g with last_fetched_at := some now,
                     last_successful_fetch_at := some now,
                     error_count := 0, last_error := none }
          else g))
    ∧ ((fetch_and_store db f now (.status 304 reason parsed re rlm)).1.entries
        = db.entries)
    ∧ ((fetch_and_store db f now (.status 304 reason parsed re rlm)).1.subscriptions
        = db.subscriptions)
    ∧ ((fetch_and_store db f now (.status 304 reason parsed re rlm)).1.sent_entries
        = db.sent_entries) :=
  ⟨rfl, rfl, rfl, rfl, rfl, rfl⟩

/-- A second feed and subscription filling channel 42 up to a quota of two. -/
def exFeedB : Feed := { id := 2, url := "http://two.example/rss" }

def exSubB : Subscription :=
  { id := 2, platform := "discord", platform_user_id := "u7",
    platform_channel_id := "42", feed_id := 2, translate := false }

/-- A database where channel 42 already holds two active subscriptions. -/
def quotaDB : DB :=
  { feeds := [exFeed, exFeedB], subscriptions := [exSub, exSubB],
    next_feed_id := 3, next_entry_id := 1, next_subscription_id := 3 }

/-- `add_feed` on an already-stored URL returns the stored row unchanged. -/
theorem add_feed_existing (db : DB) (url : String) (now : Nat) (resp : NetResponse)
    (feed : Feed) (h : get_feed_by_url db url = some feed) :
    add_feed db url now resp
      = (db, { success := true, feed := some feed, message := "Feed already exists" }) := by
  unfold add_feed
  rw [h]

/-- `get_or_create_subscription` on an existing active binding returns it
with `created = false` and no state change. -/
theorem get_or_create_subscription_existing_active (db : DB)
    (platform user_id channel_id : String) (feed_id : Nat) (guild_id : Option String)
    (sub : Subscription) (h : get_subscription db platform channel_id feed_id = some sub)
    (ha : sub.is_active = true) :
    get_or_create_subscription db platform user_id channel_id feed_id guild_id
      = (db, sub, false) := by
  unfold get_or_create_subscription
  rw [h]
  simp [ha]

/-- C8: with a positive `max_feeds_per_channel`, a `subscribe` on a channel
already holding at least that many active subscriptions is refused with the
"Maximum feeds (N) reached" message and leaves the state unchanged: no feed
row and no subscription row is created. -/
theorem subscribe_quota_refusal (settings : Settings) (db : DB)
    (platform user_id channel_id feed_url : String) (guild_id : Option String)
    (now : Nat) (resp : NetResponse)
    (hmax : settings.max_feeds_per_channel > 0)
    (hcount : count_channel_subscriptions db platform channel_id
        ≥ settings.max_feeds_per_channel) :
    subscribe settings db platform user_id channel_id feed_url guild_id now resp
      = (db, { success := false,
               message := "Maximum feeds ("
                 ++ toString settings.max_feeds_per_channel ++ ") reached" }) := by
  unfold subscribe
  rw [if_pos hmax, if_pos hcount]

/-- Witness for C8: a third subscribe on a channel already at quota 2. -/
theorem subscribe_quota_refusal_witness :
    ((2 : Nat) > 0)
    ∧ (count_channel_subscriptions quotaDB "discord" "42" ≥ 2)
    ∧ (subscribe { max_feeds_per_channel := 2 } quotaDB "discord" "u9" "42"
         "http://three.example/rss" none 0 .timeout
        = (quotaDB, { success := false, message := "Maximum feeds (2) reached" })) := by
  refine ⟨by decide, by decide, ?_⟩
  exact subscribe_quota_refusal { max_feeds_per_channel := 2 } quotaDB "discord" "u9"
    "42" "http://three.example/rss" none 0 .timeout (by decide) (by decide)

/-- C10: the quota gate runs before the existing-subscription lookup: at
quota, `subscribe` is refused even for a feed the channel is already
actively subscribed to — a call that, without the quota, would change
nothing and report success with `is_new = false`. -/
theorem subscribe_quota_precedes_existing (settings : Settings) (db : DB)
    (platform user_id channel_id feed_url : String) (guild_id : Option String)
    (now : Nat) (resp : NetResponse) (feed : Feed) (sub : Subscription)
    (hmax : settings.max_feeds_per_channel > 0)
    (hcount : count_channel_subscriptions db platform channel_id
        ≥ settings.max_feeds_per_channel)
    (hfeed : get_feed_by_url db feed_url = some feed)
    (hsub : get_subscription db platform channel_id feed.id = some sub)
    (hactive : sub.is_active = true) :
    ((subscribe settings db platform user_id channel_id feed_url guild_id now resp).2.success
        = false
     ∧ (subscribe settings db platform user_id channel_id feed_url guild_id now resp).1
        = db)
    ∧ (subscribe { max_feeds_per_channel := 0 } db platform user_id channel_id feed_url
         guild_id now resp
        = (db, { success := true, subscription := some sub, feed := some feed,
                 message := "Already subscribed to this feed", is_new := false })) := by
  constructor
  · unfold subscribe
    rw [if_pos hmax, if_pos hcount]
    exact ⟨rfl, rfl⟩
  · show subscribe { max_feeds_per_channel := 0 } db platform user_id channel_id
      feed_url guild_id now resp = _
    unfold subscribe
    rw [if_neg (by decide)]
    unfold subscribe_core
    rw [add_feed_existing db feed_url now resp feed hfeed]
    simp [get_or_create_subscription_existing_active db platform user_id channel_id
      feed.id guild_id sub hsub hactive]

/-- Witness for C10: channel 42 is at quota 2 and already actively
subscribed to `exFeed`; subscribing to its URL again is still refused. -/
theorem subscribe_quota_precedes_existing_witness :
    ((subscribe { max_feeds_per_channel := 2 } quotaDB "discord" "u9" "42"
        "http://example.org/rss" none 0 .timeout).2.success = false)
    ∧ ((subscribe { max_feeds_per_channel := 2 } quotaDB "discord" "u9" "42"
        "http://example.org/rss" none 0 .timeout).1 = quotaDB)
    ∧ ((subscribe { max_feeds_per_channel := 0 } quotaDB "discord" "u9" "42"
        "http://example.org/rss" none 0 .timeout).2.is_new = false) := by
  have h := subscribe_quota_precedes_existing { max_feeds_per_channel := 2 } quotaDB
    "discord" "u9" "42" "http://example.org/rss" none 0 .timeout exFeed exSub
    (by decide) (by decide) (by decide) (by decide) (by decide)
  exact ⟨h.1.1, h.1.2, by rw [h.2]⟩

/-- A fold whose step fixes every accumulator is the identity. -/
theorem foldl_fixed {α β : Type} (f : β → α → β) (l : List α)
    (h : ∀ a ∈ l, ∀ acc, f acc a = acc) : ∀ acc, l.foldl f acc = acc := by
  induction l with
  | nil => intro acc; rfl
  | cons x xs ih =>
    intro acc
    rw [List.foldl_cons, h x (List.mem_cons_self x xs)]
    exact ih (fun a ha acc => h a (List.mem_cons_of_mem x ha) acc) acc

/-- C9: `update_settings` returns `true` exactly when the channel has at
least one active subscription; when a non-empty `feed_url` matches none of
the channel's feeds it still returns `true` while changing nothing. -/
theorem update_settings_spec (db : DB) (platform channel_id : String)
    (feed_url : Option String) (translate : Option Bool)
    (target_language : Option String) :
    ((update_settings db platform channel_id feed_url translate target_language).2 = true
       ↔ get_channel_subscriptions db platform channel_id ≠ [])
    ∧ (∀ u, feed_url = some u → u ≠ "" →
        (∀ sub ∈ get_channel_subscriptions db platform channel_id,
          (get_feed_by_id db sub.feed_id).map (fun f => f.url) ≠ some u) →
        (update_settings db platform channel_id feed_url translate target_language).1
          = db) := by
  constructor
  · unfold update_settings
    by_cases h : (get_channel_subscriptions db platform channel_id).isEmpty = true
    · rw [if_pos h]
      rw [List.isEmpty_iff] at h
      simp [h]
    · rw [if_neg h]
      rw [List.isEmpty_iff] at h  -- does not apply; h is negated
      simp [h]
  · intro u hu hne hmiss
    unfold update_settings
    by_cases h : (get_channel_subscriptions db platform channel_id).isEmpty = true
    · rw [if_pos h]
    · rw [if_neg h]
      apply foldl_fixed
      intro sub hs acc
      have hcond : (truthyS feed_url &&
          ((get_feed_by_id db sub.feed_id).map (fun f => f.url) != feed_url)) = true := by
        subst hu
        have h1 : truthyS (some u) = true := by simp [truthyS, hne]
        have h2 : ((get_feed_by_id db sub.feed_id).map (fun f => f.url) != some u)
            = true := bne_iff_ne.mpr (hmiss sub hs)
        rw [h1, h2]
        rfl
      simp [hcond]

/-- Witness for C9: channel 42 has one active subscription and the supplied
URL matches none of its feeds; the call returns `true` and changes nothing. -/
theorem update_settings_spec_witness :
    ((update_settings exDB "discord" "42" (some "http://other.example/rss")
        (some true) none).2 = true)
    ∧ ((update_settings exDB "discord" "42" (some "http://other.example/rss")
        (some true) none).1 = exDB) := by
  have h := update_settings_spec exDB "discord" "42"
    (some "http://other.example/rss") (some true) none
  exact ⟨h.1.mpr (by decide),
    h.2 "http://other.example/rss" rfl (by decide) (by decide)⟩

/-! ### C3: bulk insert -/

/-- The data fields of a stored entry, as they came from the parser. -/
def FeedEntry.toData (e : FeedEntry) : EntryData :=
  { guid := e.guid, title := e.title, link := e.link, summary := e.summary,
    content := e.content, author := e.author, published_at := e.published_at,
    image_url := e.image_url }

/-- The guids already stored for a feed. -/
def storedGuids (db : DB) (feed_id : Nat) : List String :=
  (db.entries.filter (fun e => e.feed_id == feed_id)).map (fun e => e.guid)

/-- The claim's own description of bulk insert, written from the spec text:
keep, in batch order, the first occurrence of each guid not yet present;
drop every later occurrence. -/
def firstNewOccurrences (seen : List String) : List EntryData → List EntryData
  | [] => []
  | d :: rest =>
    if d.guid ∈ seen then firstNewOccurrences seen rest
    else d :: firstNewOccurrences (seen ++ [d.guid]) rest

theorem mem_storedGuids (db : DB) (fid : Nat) (g : String) :
    g ∈ storedGuids db fid ↔ ∃ e ∈ db.entries, e.feed_id = fid ∧ e.guid = g := by
  unfold storedGuids
  simp [List.mem_filter]
  constructor
  · rintro ⟨e, ⟨he, hf⟩, hg⟩
    exact ⟨e, he, hf, hg⟩
  · rintro ⟨e, he, hf, hg⟩
    exact ⟨e, ⟨he, hf⟩, hg⟩

theorem get_entry_by_guid_none_iff (db : DB) (fid : Nat) (g : String) :
    get_entry_by_guid db fid g = none ↔ g ∉ storedGuids db fid := by
  unfold get_entry_by_guid
  rw [List.find?_eq_none, mem_storedGuids]
  constructor
  · rintro h ⟨e, he, hf, hg⟩
    have := h e he
    simp [hf, hg] at this
  · intro h e he
    simp only [Bool.and_eq_true, beq_iff_eq, not_and]
    intro hf hg
    exact h ⟨e, he, hf, hg⟩

theorem storedGuids_create_entry (db : DB) (fid : Nat) (d : EntryData) :
    storedGuids (create_entry db fid d).1 fid = storedGuids db fid ++ [d.guid] := by
  unfold storedGuids create_entry
  simp

/-- C3: bulk insert leaves the entry table equal to the prior rows followed
by exactly the returned list; that list realises, in order, the first
occurrence of each `(feed_id, guid)` pair not already stored, later
occurrences being silently dropped; and every created row belongs to the
feed. -/
theorem create_entries_bulk_spec (db : DB) (fid : Nat) (batch : List EntryData) :
    ((create_entries_bulk db fid batch).1.entries
        = db.entries ++ (create_entries_bulk db fid batch).2)
    ∧ ((create_entries_bulk db fid batch).2.map FeedEntry.toData
        = firstNewOccurrences (storedGuids db fid) batch)
    ∧ (∀ e ∈ (create_entries_bulk db fid batch).2, e.feed_id = fid) := by
  induction batch generalizing db with
  | nil =>
    refine ⟨by simp [create_entries_bulk], rfl, by simp [create_entries_bulk]⟩
  | cons d rest ih =>
    cases hlk : get_entry_by_guid db fid d.guid with
    | some e0 =>
      have hseen : d.guid ∈ storedGuids db fid := by
        rw [mem_storedGuids]
        have hmem := List.mem_of_find?_eq_some hlk
        have hp := List.find?_some hlk
        simp only [Bool.and_eq_true, beq_iff_eq] at hp
        exact ⟨e0, hmem, hp.1, hp.2⟩
      have hred : create_entries_bulk db fid (d :: rest)
          = create_entries_bulk db fid rest := by
        simp only [create_entries_bulk, hlk]
      rw [hred]
      refine ⟨(ih db).1, ?_, (ih db).2.2⟩
      rw [(ih db).2.1]
      simp only [firstNewOccurrences]
      rw [if_pos hseen]
    | none =>
      have hseen : d.guid ∉ storedGuids db fid :=
        (get_entry_by_guid_none_iff db fid d.guid).mp hlk
      have hred : create_entries_bulk db fid (d :: rest)
          = ((create_entries_bulk (create_entry db fid d).1 fid rest).1,
             (create_entry db fid d).2
               :: (create_entries_bulk (create_entry db fid d).1 fid rest).2) := by
        simp only [create_entries_bulk, hlk]
      rw [hred]
      have h1 := ih (create_entry db fid d).1
      refine ⟨?_, ?_, ?_⟩
      · show (create_entries_bulk (create_entry db fid d).1 fid rest).1.entries = _
        rw [h1.1]
        show (create_entry db fid d).1.entries ++ _
          = db.entries ++ ((create_entry db fid d).2 :: _)
        have h2 : (create_entry db fid d).1.entries
            = db.entries ++ [(create_entry db fid d).2] := rfl
        rw [h2, List.append_assoc]
        rfl
      · show FeedEntry.toData (create_entry db fid d).2
            :: (create_entries_bulk (create_entry db fid d).1 fid rest).2.map FeedEntry.toData
          = firstNewOccurrences (storedGuids db fid) (d :: rest)
        simp only [firstNewOccurrences]
        rw [if_neg hseen, h1.2.1, storedGuids_create_entry]
        rfl
      · intro e he
        rcases List.mem_cons.mp he with h | h
        · rw [h]
          rfl
        · exact h1.2.2 e h

/-- A batch with an in-batch duplicate and a fresh guid. -/
def exBatch : List EntryData := [exData, exData, { exData with guid := "g2" }]

/-- The first row `create_entries_bulk` creates from `exBatch` on `exDB`. -/
def exCreatedA : FeedEntry :=
  { id := 1, feed_id := 1, guid := "guid-a", title := "Item A",
    link := "http://example.org/a", published_at := some 100 }

/-- Witness for C3: the duplicate occurrence is dropped and the two distinct
guids are appended in order. -/
theorem create_entries_bulk_spec_witness :
    ((create_entries_bulk exDB 1 exBatch).1.entries
        = exDB.entries ++ (create_entries_bulk exDB 1 exBatch).2)
    ∧ ((create_entries_bulk exDB 1 exBatch).2.map FeedEntry.toData
        = firstNewOccurrences (storedGuids exDB 1) exBatch)
    ∧ exCreatedA.feed_id = 1 := by
  refine ⟨(create_entries_bulk_spec exDB 1 exBatch).1,
    (create_entries_bulk_spec exDB 1 exBatch).2.1, ?_⟩
  exact (create_entries_bulk_spec exDB 1 exBatch).2.2 exCreatedA (by decide)

/-! ### C7: the dispatch query -/

/-- C7: the dispatch query returns at most `limit` entries, all rows of the
subscription's feed carrying no receipt for that subscription, ordered by
`published_at` descending with undated entries last; a nonexistent
subscription id yields the empty list. -/
theorem unsent_query_spec (db : DB) (sid limit : Nat) :
    ((get_unsent_entries_for_subscription db sid limit).length ≤ limit)
    ∧ (∀ sub, get_subscription_by_id db sid = some sub →
        ∀ e ∈ get_unsent_entries_for_subscription db sid limit,
          e ∈ db.entries ∧ e.feed_id = sub.feed_id ∧ is_entry_sent db sid e.id = false)
    ∧ List.Sorted entryOrder (get_unsent_entries_for_subscription db sid limit)
    ∧ (get_subscription_by_id db sid = none →
        get_unsent_entries_for_subscription db sid limit = []) := by
  unfold get_unsent_entries_for_subscription
  cases hlk : get_subscription_by_id db sid with
  | none =>
    refine ⟨by simp, ?_, List.sorted_nil, fun _ => rfl⟩
    intro sub h
    cases h
  | some sub0 =>
    refine ⟨List.length_take_le limit _, ?_, ?_, ?_⟩
    · intro sub h e he
      cases h
      have he1 : e ∈ List.insertionSort entryOrder
          (db.entries.filter (fun x =>
            x.feed_id == sub0.feed_id && !(is_entry_sent db sid x.id))) :=
        List.mem_of_mem_take he
      rw [List.mem_insertionSort] at he1
      have he2 := List.mem_filter.mp he1
      refine ⟨he2.1, ?_, ?_⟩
      · have := he2.2
        simp only [Bool.and_eq_true, beq_iff_eq] at this
        exact this.1
      · have := he2.2
        simp only [Bool.and_eq_true, Bool.not_eq_true'] at this
        exact this.2
    · exact (List.sorted_insertionSort entryOrder _).sublist (List.take_sublist _ _)
    · intro h
      cases h

/-- A database with one sent entry, one undated entry and one fresh entry. -/
def queryDB : DB :=
  { feeds := [exFeed], subscriptions := [exSub],
    entries := [
      { id := 1, feed_id := 1, guid := "a", title := "A",
        link := "http://example.org/1", published_at := some 100 },
      { id := 2, feed_id := 1, guid := "b", title := "B",
        link := "http://example.org/2", published_at := none },
      { id := 3, feed_id := 1, guid := "c", title := "C",
        link := "http://example.org/3", published_at := some 200 }],
    sent_entries := [{ subscription_id := 1, entry_id := 1, sent_at := 0 }],
    next_feed_id := 2, next_entry_id := 4, next_subscription_id := 2 }

/-- Witness for C7 on `queryDB`, including a nonexistent subscription id. -/
theorem unsent_query_spec_witness :
    ((get_unsent_entries_for_subscription queryDB 1 10).length ≤ 10)
    ∧ (∀ e ∈ get_unsent_entries_for_subscription queryDB 1 10,
        e ∈ queryDB.entries ∧ e.feed_id = exSub.feed_id
          ∧ is_entry_sent queryDB 1 e.id = false)
    ∧ List.Sorted entryOrder (get_unsent_entries_for_subscription queryDB 1 10)
    ∧ (get_unsent_entries_for_subscription queryDB 99 10 = []) := by
  refine ⟨(unsent_query_spec queryDB 1 10).1, ?_,
    (unsent_query_spec queryDB 1 10).2.2.1,
    (unsent_query_spec queryDB 99 10).2.2.2 (by decide)⟩
  intro e he
  exact (unsent_query_spec queryDB 1 10).2.1 exSub (by decide) e he

/-! ### C6: the translation cache -/

theorem mem_of_mem_evictOldest {m : Nat} {l : List CacheSlot} {s : CacheSlot}
    (h : s ∈ evictOldest m l) : s ∈ l := by
  induction l with
  | nil => cases h
  | cons x xs ih =>
    unfold evictOldest at h
    by_cases hc : xs.length + 1 ≥ m
    · rw [if_pos hc] at h
      exact List.mem_cons_of_mem x (ih h)
    · rw [if_neg hc] at h
      exact h

theorem find?_append_right {α : Type} (p : α → Bool) (l1 l2 : List α)
    (h : ∀ x ∈ l1, p x = false) :
    (l1 ++ l2).find? p = l2.find? p := by
  induction l1 with
  | nil => rfl
  | cons x xs ih =>
    rw [List.cons_append, List.find?_cons, h x (List.mem_cons_self x xs)]
    exact ih (fun a ha => h a (List.mem_cons_of_mem x ha))

/-- Reading back, before its expiry, a key just written to the memory cache
yields the written value. -/
theorem MemoryCache.get_set_self (c : MemoryCache) (t t2 : Nat) (key v : String)
    (ttl : Nat) (h : t2 ≤ t + ttl) :
    ((c.set t key v (some ttl)).get t2 key).1 = some v := by
  unfold MemoryCache.set MemoryCache.get
  have hfk : ∀ s ∈ evictOldest c.max_size
      (c.slots.filter (fun s => !(s.key == key))),
      ((fun s => s.key == key) s) = false := by
    intro s hs
    have hm := List.mem_filter.mp (mem_of_mem_evictOldest hs)
    simpa using hm.2
  simp only []
  rw [find?_append_right _ _ _ hfk]
  by_cases h0 : ttl = 0
  · subst h0
    simp
  · simp [h0, Nat.not_lt.mpr h]

/-- After an uncached provider success with non-empty output, an immediate
re-translation of the same text and target hits the cache. -/
theorem call_provider_then_hit (svc : TranslationService) (c : MemoryCache)
    (t1 t2 : Nat) (text target : String) (source_lang : Option String)
    (hc : svc.cache = some c)
    (htr : (text == "" || isBlank text) = false)
    (hs : (svc.call_provider t1 text target source_lang).1.success = true)
    (hn : (svc.call_provider t1 text target source_lang).1.translated_text ≠ "")
    (ht : t2 ≤ t1 + svc.cache_ttl) :
    (((svc.call_provider t1 text target source_lang).2).translate t2 text target none).1
      = { success := true,
          translated_text :=
            (svc.call_provider t1 text target source_lang).1.translated_text,
          from_cache := true } := by
  have hfst : (svc.call_provider t1 text target source_lang).1
      = svc.provider text target source_lang := by
    unfold TranslationService.call_provider
    dsimp only
    split <;> rfl
  rw [hfst] at hs hn ⊢
  have hsnd : (svc.call_provider t1 text target source_lang).2
      = { svc with cache := some (c.set t1 (svc.cache_key text target)
            (svc.provider text target source_lang).translated_text
            (some svc.cache_ttl)) } := by
    unfold TranslationService.call_provider
    rw [hc]
    simp [hs, hn]
  rw [hsnd]
  unfold TranslationService.translate
  rw [htr]
  simp only [Bool.false_eq_true, if_false]
  rw [show ({ svc with cache := some (c.set t1 (svc.cache_key text target)
        (svc.provider text target source_lang).translated_text
        (some svc.cache_ttl)) } : TranslationService).cache_key text target
      = svc.cache_key text target from rfl]
  rw [MemoryCache.get_set_self c t1 t2 (svc.cache_key text target)
    (svc.provider text target source_lang).translated_text svc.cache_ttl ht]
  simp [hn]

/-- C6: with a cache configured, once `translate` succeeds with non-empty
output that did not come from the cache, repeating the same text and target
language before the TTL expires returns the identical translated text and
reports `from_cache = true`. -/
theorem translate_cache_hit (svc : TranslationService) (c : MemoryCache)
    (t1 t2 : Nat) (text target : String)
    (hc : svc.cache = some c)
    (hsucc : (svc.translate t1 text target none).1.success = true)
    (hne : (svc.translate t1 text target none).1.translated_text ≠ "")
    (hfc : (svc.translate t1 text target none).1.from_cache = false)
    (ht : t2 ≤ t1 + svc.cache_ttl) :
    (((svc.translate t1 text target none).2).translate t2 text target none).1.translated_text
      = (svc.translate t1 text target none).1.translated_text
    ∧ (((svc.translate t1 text target none).2).translate t2 text target none).1.from_cache
      = true := by
  have htr' : (text == "" || isBlank text) = false := by
    cases h : (text == "" || isBlank text) with
    | false => rfl
    | true =>
      exfalso
      apply hne
      unfold TranslationService.translate
      rw [h]
      rfl
  cases hg : (c.get t1 (svc.cache_key text target)).1 with
  | some cached =>
    by_cases hcv : cached = ""
    · have hred : svc.translate t1 text target none
          = ({ svc with cache := some (c.get t1 (svc.cache_key text target)).2
              } : TranslationService).call_provider t1 text target none := by
        unfold TranslationService.translate
        rw [htr', if_neg Bool.false_ne_true, hc]
        dsimp only
        rw [hg]
        dsimp only
        rw [if_neg (fun hh => hh hcv)]
      rw [hred] at hsucc hne ⊢
      have h2 := call_provider_then_hit _ _ t1 t2 text target none rfl htr' hsucc hne ht
      rw [h2]
      exact ⟨rfl, rfl⟩
    · exfalso
      have hftrue : (svc.translate t1 text target none).1.from_cache = true := by
        unfold TranslationService.translate
        rw [htr', if_neg Bool.false_ne_true, hc]
        dsimp only
        rw [hg]
        dsimp only
        rw [if_pos hcv]
      rw [hftrue] at hfc
      cases hfc
  | none =>
    have hred : svc.translate t1 text target none
        = ({ svc with cache := some (c.get t1 (svc.cache_key text target)).2
            } : TranslationService).call_provider t1 text target none := by
      unfold TranslationService.translate
      rw [htr', if_neg Bool.false_ne_true, hc]
      dsimp only
      rw [hg]
    rw [hred] at hsucc hne ⊢
    have h2 := call_provider_then_hit _ _ t1 t2 text target none rfl htr' hsucc hne ht
    rw [h2]
    exact ⟨rfl, rfl⟩

/-- A provider that always answers with a fixed translation. -/
def exProvider : String → String → Option String → TranslationResult :=
  fun _ _ _ => { success := true, translated_text := "Translated" }

/-- A translation service over an empty memory cache with the 7-day TTL. -/
def exSvc : TranslationService :=
  { provider_name := "deepl", provider := exProvider,
    text_hash := fun s => s, cache := some { max_size := 10000, slots := [] },
    cache_ttl := 604800 }

/-- Witness for C6: translating "Hello" twice within the TTL. -/
theorem translate_cache_hit_witness :
    ((exSvc.translate 0 "Hello" "zh-CN" none).1.success = true)
    ∧ ((exSvc.translate 0 "Hello" "zh-CN" none).1.translated_text ≠ "")
    ∧ ((exSvc.translate 0 "Hello" "zh-CN" none).1.from_cache = false)
    ∧ (((exSvc.translate 0 "Hello" "zh-CN" none).2.translate 7 "Hello" "zh-CN" none).1.translated_text
        = (exSvc.translate 0 "Hello" "zh-CN" none).1.translated_text)
    ∧ (((exSvc.translate 0 "Hello" "zh-CN" none).2.translate 7 "Hello" "zh-CN" none).1.from_cache
        = true) := by
  have h := translate_cache_hit exSvc { max_size := 10000, slots := [] } 0 7 "Hello"
    "zh-CN" rfl (by decide) (by decide) (by decide) (by decide)
  exact ⟨by decide, by decide, by decide, h.1, h.2⟩

/-! ### C2: receipts match adapter acknowledgements -/

/-- The identity-relevant part of an entry row: primary key and feed. -/
def entryKey (e : FeedEntry) : Nat × Nat := (e.id, e.feed_id)

theorem update_entry_translation_frame (db : DB) (eid : Nat)
    (tt st lang : String) :
    (update_entry_translation db eid tt st lang).sent_entries = db.sent_entries
    ∧ (update_entry_translation db eid tt st lang).subscriptions = db.subscriptions
    ∧ (update_entry_translation db eid tt st lang).feeds = db.feeds
    ∧ (update_entry_translation db eid tt st lang).entries.map entryKey
        = db.entries.map entryKey := by
  refine ⟨rfl, rfl, rfl, ?_⟩
  unfold update_entry_translation
  show (db.entries.map _).map entryKey = _
  rw [List.map_map]
  apply List.map_congr_left
  intro e he
  show entryKey (if (e.id == eid) = true then _ else e) = entryKey e
  split <;> rfl

/-- Conditionally writing back a translation preserves every table except
the translated fields of one entry. -/
theorem ite_update_translation_frame (db : DB) (C : Prop) [Decidable C]
    (eid : Nat) (a b lang : String) :
    ((if C then update_entry_translation db eid a b lang else db).sent_entries
        = db.sent_entries)
    ∧ ((if C then update_entry_translation db eid a b lang else db).subscriptions
        = db.subscriptions)
    ∧ ((if C then update_entry_translation db eid a b lang else db).feeds = db.feeds)
    ∧ ((if C then update_entry_translation db eid a b lang else db).entries.map entryKey
        = db.entries.map entryKey) := by
  split
  · exact update_entry_translation_frame db eid a b lang
  · exact ⟨rfl, rfl, rfl, rfl⟩

theorem dispatcher_translate_entry_frame (db : DB) (e : FeedEntry)
    (target : String) (svc : Option (String → String → TranslationResult)) :
    (dispatcher_translate_entry db e target svc).1.sent_entries = db.sent_entries
    ∧ (dispatcher_translate_entry db e target svc).1.subscriptions = db.subscriptions
    ∧ (dispatcher_translate_entry db e target svc).1.feeds = db.feeds
    ∧ (dispatcher_translate_entry db e target svc).1.entries.map entryKey
        = db.entries.map entryKey := by
  unfold dispatcher_translate_entry
  split
  · exact ⟨rfl, rfl, rfl, rfl⟩
  · cases svc with
    | none => exact ⟨rfl, rfl, rfl, rfl⟩
    | some tr =>
      dsimp only
      exact ite_update_translation_frame db _ e.id _ _ target

theorem create_message_frame (db : DB) (e : FeedEntry) (sub : Subscription)
    (svc : Option (String → String → TranslationResult))
    (sn : String → String → String) :
    (create_message db e sub svc sn).1.sent_entries = db.sent_entries
    ∧ (create_message db e sub svc sn).1.subscriptions = db.subscriptions
    ∧ (create_message db e sub svc sn).1.feeds = db.feeds
    ∧ (create_message db e sub svc sn).1.entries.map entryKey
        = db.entries.map entryKey := by
  unfold create_message
  dsimp only
  split
  · exact dispatcher_translate_entry_frame db e sub.target_language svc
  · exact ⟨rfl, rfl, rfl, rfl⟩

/-- The per-entry send loop appends one event per entry, in order; receipts
grow by exactly the acknowledged sends; all other tables are framed. -/
theorem send_loop_spec (sub : Subscription) (send : String → Message → Bool)
    (svc : Option (String → String → TranslationResult))
    (sn : String → String → String) (now : Nat) :
    ∀ (l : List FeedEntry) (acc : DB × Nat × List SendEvent),
      ∃ new : List SendEvent,
        (l.foldl (send_step sub send svc sn now) acc).2.2 = acc.2.2 ++ new
        ∧ new.map (fun ev => ev.entry_id) = l.map (fun e => e.id)
        ∧ (∀ ev ∈ new, ev.subscription_id = sub.id)
        ∧ (l.foldl (send_step sub send svc sn now) acc).1.sent_entries
            = acc.1.sent_entries ++ (new.filter (fun ev => ev.ok)).map
                (fun ev => { subscription_id := sub.id, entry_id := ev.entry_id,
                             sent_at := now })
        ∧ (l.foldl (send_step sub send svc sn now) acc).1.subscriptions
            = acc.1.subscriptions
        ∧ (l.foldl (send_step sub send svc sn now) acc).1.feeds = acc.1.feeds
        ∧ (l.foldl (send_step sub send svc sn now) acc).1.entries.map entryKey
            = acc.1.entries.map entryKey := by
  intro l
  induction l with
  | nil =>
    intro acc
    exact ⟨[], by simp, rfl, by simp, by simp, rfl, rfl, rfl⟩
  | cons e rest ih =>
    intro acc
    rw [List.foldl_cons]
    have hframe := create_message_frame acc.1 e sub svc sn
    obtain ⟨new', h1, h2, h3, h4, h5, h6, h7⟩ := ih (send_step sub send svc sn now acc e)
    have hs1 : (send_step sub send svc sn now acc e).1
        = (if send sub.platform_channel_id (create_message acc.1 e sub svc sn).2
            then mark_entry_sent (create_message acc.1 e sub svc sn).1 sub.id e.id now
            else (create_message acc.1 e sub svc sn).1) := rfl
    have hs22 : (send_step sub send svc sn now acc e).2.2
        = acc.2.2 ++ [({ subscription_id := sub.id, entry_id := e.id,
                         channel_id := sub.platform_channel_id,
                         message := (create_message acc.1 e sub svc sn).2,
                         ok := send sub.platform_channel_id
                           (create_message acc.1 e sub svc sn).2 } : SendEvent)] :=
      rfl
    have hssent : (send_step sub send svc sn now acc e).1.sent_entries
        = acc.1.sent_entries
          ++ (if send sub.platform_channel_id (create_message acc.1 e sub svc sn).2
              then [({ subscription_id := sub.id, entry_id := e.id,
                       sent_at := now } : SentEntry)]
              else []) := by
      rw [hs1]
      cases hok : send sub.platform_channel_id (create_message acc.1 e sub svc sn).2 with
      | true => simp [mark_entry_sent, hframe.1]
      | false => simp [hframe.1]
    have hsubs : (send_step sub send svc sn now acc e).1.subscriptions
        = acc.1.subscriptions := by
      rw [hs1]
      split
      · exact hframe.2.1
      · exact hframe.2.1
    have hfeeds : (send_step sub send svc sn now acc e).1.feeds = acc.1.feeds := by
      rw [hs1]
      split
      · exact hframe.2.2.1
      · exact hframe.2.2.1
    have hkeys : (send_step sub send svc sn now acc e).1.entries.map entryKey
        = acc.1.entries.map entryKey := by
      rw [hs1]
      split
      · exact hframe.2.2.2
      · exact hframe.2.2.2
    refine ⟨{ subscription_id := sub.id, entry_id := e.id,
              channel_id := sub.platform_channel_id,
              message := (create_message acc.1 e sub svc sn).2,
              ok := send sub.platform_channel_id (create_message acc.1 e sub svc sn).2 }
            :: new', ?_, ?_, ?_, ?_, ?_, ?_, ?_⟩
    · rw [h1, hs22, List.append_assoc]
      rfl
    · rw [List.map_cons, h2]
      rfl
    · intro ev hev
      rcases List.mem_cons.mp hev with h | h
      · rw [h]
      · exact h3 ev h
    · rw [h4, hssent, List.append_assoc]
      congr 1
      cases hok : send sub.platform_channel_id (create_message acc.1 e sub svc sn).2 with
      | true => simp [List.filter_cons, hok]
      | false => simp [List.filter_cons, hok]
    · rw [h5, hsubs]
    · rw [h6, hfeeds]
    · rw [h7, hkeys]

/-- Entries returned by the dispatch query are stored and unsent. -/
theorem unsent_query_mem {db : DB} {sid lim : Nat} {e : FeedEntry}
    (he : e ∈ get_unsent_entries_for_subscription db sid lim) :
    e ∈ db.entries ∧ is_entry_sent db sid e.id = false := by
  unfold get_unsent_entries_for_subscription at he
  cases hlk : get_subscription_by_id db sid with
  | none =>
    rw [hlk] at he
    simp at he
  | some sub0 =>
    rw [hlk] at he
    dsimp only at he
    have he1 := List.mem_of_mem_take he
    rw [List.mem_insertionSort] at he1
    have he2 := List.mem_filter.mp he1
    refine ⟨he2.1, ?_⟩
    have h := he2.2
    simp only [Bool.and_eq_true, Bool.not_eq_true'] at h
    exact h.2

/-- The dispatch query returns rows with pairwise distinct ids whenever the
entry table has pairwise distinct ids. -/
theorem unsent_query_ids_nodup (db : DB) (sid lim : Nat)
    (h : (db.entries.map (fun e => e.id)).Nodup) :
    ((get_unsent_entries_for_subscription db sid lim).map (fun e => e.id)).Nodup := by
  unfold get_unsent_entries_for_subscription
  cases get_subscription_by_id db sid with
  | none => simp
  | some sub0 =>
    dsimp only
    have h1 : ((db.entries.filter (fun e =>
        e.feed_id == sub0.feed_id && !(is_entry_sent db sid e.id))).map
          (fun e => e.id)).Nodup :=
      h.sublist ((List.filter_sublist _).map _)
    have h2 : ((List.insertionSort entryOrder (db.entries.filter (fun e =>
        e.feed_id == sub0.feed_id && !(is_entry_sent db sid e.id)))).map
          (fun e => e.id)).Nodup :=
      (((List.perm_insertionSort entryOrder _).map _).nodup_iff).mpr h1
    exact h2.sublist ((List.take_sublist _ _).map _)

/-- C2: within one subscription's dispatch, exactly one adapter call is made
per processed entry, in query order; a `SentReceipt` row for
`(subscription_id, entry_id)` is inserted exactly for the entries whose send
was acknowledged; an adapter returning false never yields a receipt for that
pair. -/
theorem receipts_iff_adapter_success (db : DB) (sub : Subscription)
    (adapters : String → Option (String → Message → Bool))
    (send : String → Message → Bool)
    (svc : Option (String → String → TranslationResult))
    (sn : String → String → String) (now : Nat)
    (hadapter : adapters sub.platform = some send)
    (hnodup : (db.entries.map (fun e => e.id)).Nodup) :
    ((dispatch_to_subscription db sub adapters svc sn now).2.2.map (fun ev => ev.entry_id)
        = (get_unsent_entries_for_subscription db sub.id 10).map (fun e => e.id))
    ∧ ((dispatch_to_subscription db sub adapters svc sn now).1.sent_entries
        = db.sent_entries
          ++ ((dispatch_to_subscription db sub adapters svc sn now).2.2.filter
                (fun ev => ev.ok)).map
              (fun ev => { subscription_id := sub.id, entry_id := ev.entry_id,
                           sent_at := now }))
    ∧ (∀ ev ∈ (dispatch_to_subscription db sub adapters svc sn now).2.2,
        ev.ok = false →
          is_entry_sent (dispatch_to_subscription db sub adapters svc sn now).1
            sub.id ev.entry_id = false) := by
  have hD : dispatch_to_subscription db sub adapters svc sn now
      = (get_unsent_entries_for_subscription db sub.id 10).foldl
          (send_step sub send svc sn now) (db, 0, []) := by
    unfold dispatch_to_subscription
    rw [hadapter]
  rw [hD]
  obtain ⟨new, h1, h2, h3, h4, h5, h6, h7⟩ :=
    send_loop_spec sub send svc sn now
      (get_unsent_entries_for_subscription db sub.id 10) (db, 0, [])
  have h1' : (List.foldl (send_step sub send svc sn now) (db, 0, [])
      (get_unsent_entries_for_subscription db sub.id 10)).2.2 = new := by
    rw [h1]
    rfl
  have h4' : (List.foldl (send_step sub send svc sn now) (db, 0, [])
      (get_unsent_entries_for_subscription db sub.id 10)).1.sent_entries
      = db.sent_entries ++ (new.filter (fun ev => ev.ok)).map
          (fun ev => { subscription_id := sub.id, entry_id := ev.entry_id,
                       sent_at := now }) := h4
  refine ⟨?_, ?_, ?_⟩
  · rw [h1']
    exact h2
  · rw [h1', h4']
  · intro ev hev hok
    rw [h1'] at hev
    have hevid : ev.entry_id ∈ (get_unsent_entries_for_subscription db sub.id 10).map
        (fun e => e.id) := by
      rw [← h2]
      exact List.mem_map_of_mem _ hev
    obtain ⟨e, heB, heid⟩ := List.mem_map.mp hevid
    have hunsent : is_entry_sent db sub.id e.id = false := (unsent_query_mem heB).2
    have hNE : (new.map (fun ev => ev.entry_id)).Nodup := by
      rw [h2]
      exact unsent_query_ids_nodup db sub.id 10 hnodup
    unfold is_entry_sent
    rw [h4', List.any_append]
    have hleft : db.sent_entries.any (fun s =>
        s.subscription_id == sub.id && s.entry_id == ev.entry_id) = false := by
      rw [← heid]
      exact hunsent
    rw [hleft]
    have hright : ((new.filter (fun ev => ev.ok)).map
        (fun ev => ({ subscription_id := sub.id, entry_id := ev.entry_id,
                      sent_at := now } : SentEntry))).any (fun s =>
          s.subscription_id == sub.id && s.entry_id == ev.entry_id) = false := by
      rw [List.any_eq_false]
      rintro r hr
      obtain ⟨ev2, hev2, hr2⟩ := List.mem_map.mp hr
      have hev2new := List.mem_of_mem_filter hev2
      have hev2ok : ev2.ok = true := List.of_mem_filter hev2
      rw [← hr2]
      simp only [Bool.and_eq_true, beq_iff_eq, not_and]
      intro _ heq
      have : ev2 = ev := List.inj_on_of_nodup_map hNE hev2new hev heq
      rw [this] at hev2ok
      rw [hok] at hev2ok
      cases hev2ok
    rw [hright]
    rfl

/-- An adapter registry whose discord adapter acknowledges only messages
titled "C". -/
def mixedAdapters : String → Option (String → Message → Bool) := fun p =>
  if p == "discord" then some (fun _ m => m.title == "C") else none

/-- The refused send event of the C2 witness dispatch. -/
def exRefusedEvent : SendEvent :=
  { subscription_id := 1, entry_id := 2, channel_id := "42",
    message := { title := "B", summary := "", link := "http://example.org/2",
                 source := "Example" },
    ok := false }

/-- Witness for C2: on `queryDB` the adapter acknowledges entry 3 and refuses
entry 2; exactly entry 3 gains a receipt and entry 2 gains none. -/
theorem receipts_iff_adapter_success_witness :
    ((dispatch_to_subscription queryDB exSub mixedAdapters noSvc exSourceName 5).2.2.map
        (fun ev => ev.entry_id)
      = (get_unsent_entries_for_subscription queryDB exSub.id 10).map (fun e => e.id))
    ∧ ((dispatch_to_subscription queryDB exSub mixedAdapters noSvc exSourceName 5).1.sent_entries
      = queryDB.sent_entries
        ++ ((dispatch_to_subscription queryDB exSub mixedAdapters noSvc exSourceName 5).2.2.filter
              (fun ev => ev.ok)).map
            (fun ev => { subscription_id := exSub.id, entry_id := ev.entry_id,
                         sent_at := 5 }))
    ∧ (is_entry_sent
        (dispatch_to_subscription queryDB exSub mixedAdapters noSvc exSourceName 5).1
        exSub.id 2 = false) := by
  have h := receipts_iff_adapter_success queryDB exSub mixedAdapters
    (fun _ m => m.title == "C") noSvc exSourceName 5 rfl (by decide)
  exact ⟨h.1, h.2.1, h.2.2 exRefusedEvent (by decide) (by decide)⟩

/-! ### C1: failed sends, receipts and retry across cycles -/

/-- Well-formedness guaranteed by the store: primary keys are pairwise
distinct and below their autoincrement counters. -/
structure DBWF (db : DB) : Prop where
  entries_nodup : (db.entries.map (fun e => e.id)).Nodup
  subs_nodup : (db.subscriptions.map (fun s => s.id)).Nodup
  entries_fresh : ∀ e ∈ db.entries, e.id < db.next_entry_id

theorem create_entry_wf (db : DB) (fid : Nat) (d : EntryData) (h : DBWF db) :
    DBWF (create_entry db fid d).1 := by
  refine ⟨?_, h.subs_nodup, ?_⟩
  · have hshape : (create_entry db fid d).1.entries
        = db.entries ++ [(create_entry db fid d).2] := rfl
    show ((create_entry db fid d).1.entries.map (fun e => e.id)).Nodup
    rw [hshape, List.map_append, List.nodup_append]
    refine ⟨h.entries_nodup, by simp, ?_⟩
    intro x hx hx2
    obtain ⟨e, he, hx'⟩ := List.mem_map.mp hx
    have hfresh := h.entries_fresh e he
    have hid : x = db.next_entry_id := by
      simp only [List.map_cons, List.map_nil, List.mem_singleton] at hx2
      exact hx2
    omega
  · intro e he
    show e.id < db.next_entry_id + 1
    rcases List.mem_append.mp he with h1 | h1
    · have := h.entries_fresh e h1
      omega
    · rw [List.mem_singleton] at h1
      subst h1
      exact Nat.lt_succ_self _

theorem create_entries_bulk_extends (db : DB) (fid : Nat) (batch : List EntryData) :
    ((create_entries_bulk db fid batch).1.subscriptions = db.subscriptions)
    ∧ ((create_entries_bulk db fid batch).1.sent_entries = db.sent_entries)
    ∧ (∃ tail, (create_entries_bulk db fid batch).1.entries = db.entries ++ tail)
    ∧ (DBWF db → DBWF (create_entries_bulk db fid batch).1) := by
  induction batch generalizing db with
  | nil =>
    exact ⟨rfl, rfl, ⟨[], by simp [create_entries_bulk]⟩, fun h => h⟩
  | cons d rest ih =>
    cases hlk : get_entry_by_guid db fid d.guid with
    | some e0 =>
      have hred : create_entries_bulk db fid (d :: rest)
          = create_entries_bulk db fid rest := by
        simp only [create_entries_bulk, hlk]
      rw [hred]
      exact ih db
    | none =>
      have hred : create_entries_bulk db fid (d :: rest)
          = ((create_entries_bulk (create_entry db fid d).1 fid rest).1,
             (create_entry db fid d).2
               :: (create_entries_bulk (create_entry db fid d).1 fid rest).2) := by
        simp only [create_entries_bulk, hlk]
      rw [hred]
      obtain ⟨ha, hb, ⟨tail, hcs⟩, hwf⟩ := ih (create_entry db fid d).1
      refine ⟨ha, hb, ?_, ?_⟩
      · refine ⟨(create_entry db fid d).2 :: tail, ?_⟩
        show (create_entries_bulk (create_entry db fid d).1 fid rest).1.entries = _
        rw [hcs]
        show db.entries ++ [(create_entry db fid d).2] ++ tail = _
        rw [List.append_assoc]
        rfl
      · intro h
        exact hwf (create_entry_wf db fid d h)

theorem fetch_and_store_extends (db : DB) (f : Feed) (now : Nat)
    (resp : NetResponse) :
    ((fetch_and_store db f now resp).1.subscriptions = db.subscriptions)
    ∧ ((fetch_and_store db f now resp).1.sent_entries = db.sent_entries)
    ∧ (∃ tail, (fetch_and_store db f now resp).1.entries = db.entries ++ tail)
    ∧ (DBWF db → DBWF (fetch_and_store db f now resp).1) := by
  unfold fetch_and_store
  dsimp only
  split
  · exact ⟨rfl, rfl, ⟨[], (List.append_nil db.entries).symm⟩,
      fun h => ⟨h.entries_nodup, h.subs_nodup, h.entries_fresh⟩⟩
  · split
    · exact ⟨rfl, rfl, ⟨[], (List.append_nil db.entries).symm⟩,
        fun h => ⟨h.entries_nodup, h.subs_nodup, h.entries_fresh⟩⟩
    · split
      · have hb := create_entries_bulk_extends
          (update_feed_metadata db f.id now
            (do_fetch f.url f.etag f.last_modified resp).feed_title
            (do_fetch f.url f.etag f.last_modified resp).feed_description
            (do_fetch f.url f.etag f.last_modified resp).etag
            (do_fetch f.url f.etag f.last_modified resp).last_modified)
          f.id (do_fetch f.url f.etag f.last_modified resp).entries
        exact ⟨hb.1, hb.2.1, hb.2.2.1,
          fun h => hb.2.2.2 ⟨h.entries_nodup, h.subs_nodup, h.entries_fresh⟩⟩
      · exact ⟨rfl, rfl, ⟨[], (List.append_nil db.entries).symm⟩,
          fun h => ⟨h.entries_nodup, h.subs_nodup, h.entries_fresh⟩⟩

theorem fetch_loop_extends (now : Nat) (net : Feed → NetResponse) :
    ∀ (fs : List Feed) (acc : DB × List FetchFeedResult),
      ((fs.foldl (fetch_step now net) acc).1.subscriptions = acc.1.subscriptions)
      ∧ ((fs.foldl (fetch_step now net) acc).1.sent_entries = acc.1.sent_entries)
      ∧ (∃ tail, (fs.foldl (fetch_step now net) acc).1.entries = acc.1.entries ++ tail)
      ∧ (DBWF acc.1 → DBWF (fs.foldl (fetch_step now net) acc).1) := by
  intro fs
  induction fs with
  | nil =>
    intro acc
    exact ⟨rfl, rfl, ⟨[], by simp⟩, fun h => h⟩
  | cons f rest ih =>
    intro acc
    rw [List.foldl_cons]
    obtain ⟨ha, hb, ⟨t2, hc⟩, hwf⟩ := ih (fetch_step now net acc f)
    have hstep := fetch_and_store_extends acc.1 f now (net f)
    have hse : (fetch_step now net acc f).1 = (fetch_and_store acc.1 f now (net f)).1 := rfl
    refine ⟨?_, ?_, ?_, ?_⟩
    · rw [ha, hse, hstep.1]
    · rw [hb, hse, hstep.2.1]
    · obtain ⟨t1, ht1⟩ := hstep.2.2.1
      exact ⟨t1 ++ t2, by rw [hc, hse, ht1, List.append_assoc]⟩
    · intro h
      exact hwf (hse ▸ hstep.2.2.2 h)

/-- Dispatching one subscription changes no table except the translation
fields of entries and that subscription's receipts, and every logged event
belongs to it. -/
theorem dispatch_to_subscription_frame (db : DB) (s : Subscription)
    (adapters : String → Option (String → Message → Bool))
    (svc : Option (String → String → TranslationResult))
    (sn : String → String → String) (now : Nat) :
    ((dispatch_to_subscription db s adapters svc sn now).1.subscriptions
        = db.subscriptions)
    ∧ ((dispatch_to_subscription db s adapters svc sn now).1.feeds = db.feeds)
    ∧ ((dispatch_to_subscription db s adapters svc sn now).1.entries.map entryKey
        = db.entries.map entryKey)
    ∧ (∀ sid eid, sid ≠ s.id →
        is_entry_sent (dispatch_to_subscription db s adapters svc sn now).1 sid eid
          = is_entry_sent db sid eid)
    ∧ (∀ ev ∈ (dispatch_to_subscription db s adapters svc sn now).2.2,
        ev.subscription_id = s.id) := by
  unfold dispatch_to_subscription
  cases adapters s.platform with
  | none =>
    refine ⟨rfl, rfl, rfl, fun _ _ _ => rfl, ?_⟩
    intro ev hev
    cases hev
  | some send =>
    dsimp only
    obtain ⟨new, h1, h2, h3, h4, h5, h6, h7⟩ :=
      send_loop_spec s send svc sn now
        (get_unsent_entries_for_subscription db s.id 10) (db, 0, [])
    refine ⟨h5, h6, h7, ?_, ?_⟩
    · intro sid eid hne
      unfold is_entry_sent
      rw [h4, List.any_append]
      have hm : (((new.filter (fun ev => ev.ok)).map
          (fun ev => ({ subscription_id := s.id, entry_id := ev.entry_id,
                        sent_at := now } : SentEntry))).any
            (fun r => r.subscription_id == sid && r.entry_id == eid)) = false := by
        rw [List.any_eq_false]
        intro r hr
        obtain ⟨ev2, hev2, hr2⟩ := List.mem_map.mp hr
        rw [← hr2]
        simp only [Bool.and_eq_true, beq_iff_eq, not_and]
        intro hsid
        exact absurd hsid.symm hne
      rw [hm, Bool.or_false]
    · intro ev hev
      rw [h1] at hev
      refine h3 ev ?_
      have : (([] : List SendEvent) ++ new) = new := by simp
      rw [← this]
      exact hev

/-- A `find?` by a unique id returns the member itself. -/
theorem find?_id_self {l : List Subscription} {sub : Subscription}
    (hmem : sub ∈ l) (hnodup : (l.map (fun s => s.id)).Nodup) :
    l.find? (fun s => s.id == sub.id) = some sub := by
  induction l with
  | nil => cases hmem
  | cons x xs ih =>
    rw [List.map_cons, List.nodup_cons] at hnodup
    rcases List.mem_cons.mp hmem with h | h
    · subst h
      exact List.find?_cons_of_pos xs (by simp)
    · have hx : ¬((fun s => s.id == sub.id) x = true) := by
        simp only [beq_iff_eq]
        intro heq
        apply hnodup.1
        rw [heq]
        exact List.mem_map_of_mem _ h
      have hred : List.find? (fun s => s.id == sub.id) (x :: xs)
          = List.find? (fun s => s.id == sub.id) xs :=
        List.find?_cons_of_neg xs hx
      rw [hred]
      exact ih h hnodup.2

/-- Entry keys transfer membership between key-equal tables. -/
theorem exists_entry_of_keys (dbA dbB : DB)
    (hkeys : dbA.entries.map entryKey = dbB.entries.map entryKey)
    {e : FeedEntry} (he : e ∈ dbB.entries) :
    ∃ e2 ∈ dbA.entries, e2.id = e.id ∧ e2.feed_id = e.feed_id := by
  have hm : entryKey e ∈ dbA.entries.map entryKey := by
    rw [hkeys]
    exact List.mem_map_of_mem _ he
  obtain ⟨e2, he2, hk⟩ := List.mem_map.mp hm
  exact ⟨e2, he2, congrArg Prod.fst hk, congrArg Prod.snd hk⟩

/-- The length of a subscription's unsent set depends only on entry keys and
that subscription's receipts. -/
theorem unsent_filter_length_eq (dbA dbB : DB) (sid fid : Nat)
    (hkeys : dbA.entries.map entryKey = dbB.entries.map entryKey)
    (hsent : ∀ eid, is_entry_sent dbA sid eid = is_entry_sent dbB sid eid) :
    (dbA.entries.filter (fun e =>
        e.feed_id == fid && !(is_entry_sent dbA sid e.id))).length
      = (dbB.entries.filter (fun e =>
          e.feed_id == fid && !(is_entry_sent dbB sid e.id))).length := by
  rw [← List.countP_eq_length_filter, ← List.countP_eq_length_filter]
  have hA : List.countP (fun e => e.feed_id == fid && !(is_entry_sent dbA sid e.id))
      dbA.entries
      = List.countP (fun k => k.2 == fid && !(is_entry_sent dbB sid k.1))
          (dbA.entries.map entryKey) := by
    rw [List.countP_map]
    apply List.countP_congr
    intro e he
    have hpe : (e.feed_id == fid && !(is_entry_sent dbA sid e.id))
        = ((fun k => k.2 == fid && !(is_entry_sent dbB sid k.1)) ∘ entryKey) e := by
      show _ = ((entryKey e).2 == fid && !(is_entry_sent dbB sid (entryKey e).1))
      rw [hsent e.id]
      rfl
    rw [hpe]
  have hB : List.countP (fun e => e.feed_id == fid && !(is_entry_sent dbB sid e.id))
      dbB.entries
      = List.countP (fun k => k.2 == fid && !(is_entry_sent dbB sid k.1))
          (dbB.entries.map entryKey) := by
    rw [List.countP_map]
    apply List.countP_congr
    intro e he
    exact Iff.rfl
  rw [hA, hB, hkeys]

/-- An unsent entry of the subscription's feed is in the dispatch batch when
the subscription has at most 10 unsent entries. -/
theorem mem_unsent_query_of_small (db : DB) (sub : Subscription) (e : FeedEntry)
    (hlk : get_subscription_by_id db sub.id = some sub)
    (hmem : e ∈ db.entries) (hfid : e.feed_id = sub.feed_id)
    (hunsent : is_entry_sent db sub.id e.id = false)
    (hsmall : (db.entries.filter (fun x =>
        x.feed_id == sub.feed_id && !(is_entry_sent db sub.id x.id))).length ≤ 10) :
    e.id ∈ (get_unsent_entries_for_subscription db sub.id 10).map (fun x => x.id) := by
  unfold get_unsent_entries_for_subscription
  rw [hlk]
  dsimp only
  have hf : e ∈ db.entries.filter (fun x =>
      x.feed_id == sub.feed_id && !(is_entry_sent db sub.id x.id)) := by
    rw [List.mem_filter]
    refine ⟨hmem, ?_⟩
    simp [hfid, hunsent]
  have hlen : (List.insertionSort entryOrder (db.entries.filter (fun x =>
      x.feed_id == sub.feed_id && !(is_entry_sent db sub.id x.id)))).length
      = (db.entries.filter (fun x =>
          x.feed_id == sub.feed_id && !(is_entry_sent db sub.id x.id))).length :=
    (List.perm_insertionSort entryOrder _).length_eq
  rw [List.take_of_length_le (le_trans (le_of_eq hlen) hsmall)]
  refine List.mem_map_of_mem _ ?_
  rw [List.mem_insertionSort]
  exact hf

/-- Folding subscriptions whose ids all differ from `S.id` preserves `S`'s
view of the store, and contributes only events of other subscriptions. -/
theorem subs_loop_other (adapters : String → Option (String → Message → Bool))
    (svc : Option (String → String → TranslationResult))
    (sn : String → String → String) (now : Nat) (S : Subscription) :
    ∀ (l : List Subscription) (acc : DB × Nat × List SendEvent),
      (∀ s ∈ l, s.id ≠ S.id) →
      ((l.foldl (subs_step adapters svc sn now) acc).1.subscriptions
          = acc.1.subscriptions)
      ∧ ((l.foldl (subs_step adapters svc sn now) acc).1.entries.map entryKey
          = acc.1.entries.map entryKey)
      ∧ (∀ eid, is_entry_sent (l.foldl (subs_step adapters svc sn now) acc).1 S.id eid
          = is_entry_sent acc.1 S.id eid)
      ∧ (∃ extra, (l.foldl (subs_step adapters svc sn now) acc).2.2 = acc.2.2 ++ extra
          ∧ ∀ ev ∈ extra, ev.subscription_id ≠ S.id) := by
  intro l
  induction l with
  | nil =>
    intro acc h
    refine ⟨rfl, rfl, fun _ => rfl, ⟨[], by simp, ?_⟩⟩
    intro ev c
    cases c
  | cons s rest ih =>
    intro acc hl
    rw [List.foldl_cons]
    have hs := dispatch_to_subscription_frame acc.1 s adapters svc sn now
    have hsne : s.id ≠ S.id := hl s (List.mem_cons_self s rest)
    obtain ⟨h1, h2, h3, ⟨extra, he1, he2⟩⟩ := ih (subs_step adapters svc sn now acc s)
      (fun a ha => hl a (List.mem_cons_of_mem s ha))
    have hstep1 : (subs_step adapters svc sn now acc s).1
        = (dispatch_to_subscription acc.1 s adapters svc sn now).1 := rfl
    have hstep22 : (subs_step adapters svc sn now acc s).2.2
        = acc.2.2 ++ (dispatch_to_subscription acc.1 s adapters svc sn now).2.2 := rfl
    refine ⟨?_, ?_, ?_, ?_⟩
    · rw [h1, hstep1, hs.1]
    · rw [h2, hstep1, hs.2.2.1]
    · intro eid
      rw [h3 eid, hstep1]
      exact hs.2.2.2.1 S.id eid (Ne.symm hsne)
    · refine ⟨(dispatch_to_subscription acc.1 s adapters svc sn now).2.2 ++ extra,
        ?_, ?_⟩
      · rw [he1, hstep22, List.append_assoc]
      · intro ev hev
        rcases List.mem_append.mp hev with h | h
        · rw [hs.2.2.2.2 ev h]
          exact hsne
        · exact he2 ev h

/-- The per-subscription loop only appends to the event log. -/
theorem subs_loop_events_grow (adapters : String → Option (String → Message → Bool))
    (svc : Option (String → String → TranslationResult))
    (sn : String → String → String) (now : Nat) :
    ∀ (l : List Subscription) (acc : DB × Nat × List SendEvent),
      ∃ extra, (l.foldl (subs_step adapters svc sn now) acc).2.2 = acc.2.2 ++ extra := by
  intro l
  induction l with
  | nil =>
    intro acc
    exact ⟨[], by simp⟩
  | cons s rest ih =>
    intro acc
    rw [List.foldl_cons]
    obtain ⟨extra, he⟩ := ih (subs_step adapters svc sn now acc s)
    refine ⟨(dispatch_to_subscription acc.1 s adapters svc sn now).2.2 ++ extra, ?_⟩
    rw [he]
    rw [show (subs_step adapters svc sn now acc s).2.2
        = acc.2.2 ++ (dispatch_to_subscription acc.1 s adapters svc sn now).2.2 from rfl]
    rw [List.append_assoc]

/-- With an adapter present, one subscription's dispatch attempts every
entry of its batch exactly once, and a refused entry gains no receipt. -/
theorem dispatch_to_subscription_spec (db : DB) (sub : Subscription)
    (adapters : String → Option (String → Message → Bool))
    (send : String → Message → Bool)
    (svc : Option (String → String → TranslationResult))
    (sn : String → String → String) (now : Nat)
    (hadapter : adapters sub.platform = some send) :
    ((dispatch_to_subscription db sub adapters svc sn now).2.2.map (fun ev => ev.entry_id)
        = (get_unsent_entries_for_subscription db sub.id 10).map (fun e => e.id))
    ∧ ((db.entries.map (fun e => e.id)).Nodup →
        ∀ ev ∈ (dispatch_to_subscription db sub adapters svc sn now).2.2,
          ev.ok = false →
            is_entry_sent (dispatch_to_subscription db sub adapters svc sn now).1
              sub.id ev.entry_id = false) := by
  have hD : dispatch_to_subscription db sub adapters svc sn now
      = (get_unsent_entries_for_subscription db sub.id 10).foldl
          (send_step sub send svc sn now) (db, 0, []) := by
    unfold dispatch_to_subscription
    rw [hadapter]
  rw [hD]
  obtain ⟨new, h1, h2, h3, h4, h5, h6, h7⟩ :=
    send_loop_spec sub send svc sn now
      (get_unsent_entries_for_subscription db sub.id 10) (db, 0, [])
  have h1' : (List.foldl (send_step sub send svc sn now) (db, 0, [])
      (get_unsent_entries_for_subscription db sub.id 10)).2.2 = new := by
    rw [h1]
    rfl
  refine ⟨?_, ?_⟩
  · rw [h1']
    exact h2
  · intro hnodup ev hev hok
    rw [h1'] at hev
    have hevid : ev.entry_id ∈ (get_unsent_entries_for_subscription db sub.id 10).map
        (fun e => e.id) := by
      rw [← h2]
      exact List.mem_map_of_mem _ hev
    obtain ⟨e, heB, heid⟩ := List.mem_map.mp hevid
    have hunsent : is_entry_sent db sub.id e.id = false := (unsent_query_mem heB).2
    have hNE : (new.map (fun ev => ev.entry_id)).Nodup := by
      rw [h2]
      exact unsent_query_ids_nodup db sub.id 10 hnodup
    unfold is_entry_sent
    rw [h4, List.any_append]
    have hleft : db.sent_entries.any (fun s =>
        s.subscription_id == sub.id && s.entry_id == ev.entry_id) = false := by
      rw [← heid]
      exact hunsent
    rw [hleft]
    have hright : ((new.filter (fun ev => ev.ok)).map
        (fun ev => ({ subscription_id := sub.id, entry_id := ev.entry_id,
                      sent_at := now } : SentEntry))).any (fun s =>
          s.subscription_id == sub.id && s.entry_id == ev.entry_id) = false := by
      rw [List.any_eq_false]
      rintro r hr
      obtain ⟨ev2, hev2, hr2⟩ := List.mem_map.mp hr
      have hev2new := List.mem_of_mem_filter hev2
      have hev2ok : ev2.ok = true := List.of_mem_filter hev2
      rw [← hr2]
      simp only [Bool.and_eq_true, beq_iff_eq, not_and]
      intro _ heq
      have hsame : ev2 = ev := List.inj_on_of_nodup_map hNE hev2new hev heq
      rw [hsame] at hev2ok
      rw [hok] at hev2ok
      cases hev2ok
    rw [hright]
    rfl

/-- C1 (amended): when the adapter refuses an entry during a dispatch cycle,
no receipt for it is written in that cycle; and an entry of an active
subscription's feed that is stored and unsent when a cycle starts is
attempted again (retried) in that cycle, provided the cycle's fetch phase
collects at least one new entry — otherwise `dispatch_once` returns before
dispatching — and the subscription then has at most 10 (the query limit)
unsent entries. -/
theorem adapter_failure_no_receipt_and_retry (db : DB) (now : Nat)
    (net : Feed → NetResponse)
    (adapters : String → Option (String → Message → Bool))
    (send : String → Message → Bool)
    (svc : Option (String → String → TranslationResult))
    (sn : String → String → String)
    (sub : Subscription) (e : FeedEntry)
    (hwf : DBWF db)
    (hsubmem : sub ∈ db.subscriptions) (hact : sub.is_active = true)
    (hadapter : adapters sub.platform = some send)
    (hmem : e ∈ db.entries) (hfid : e.feed_id = sub.feed_id)
    (hunsent : is_entry_sent db sub.id e.id = false)
    (hnew : collect_new_entries (fetch_all_feeds db now net).2 ≠ [])
    (hsmall : ((fetch_all_feeds db now net).1.entries.filter (fun x =>
        x.feed_id == sub.feed_id
          && !(is_entry_sent (fetch_all_feeds db now net).1 sub.id x.id))).length
        ≤ 10) :
    (∃ ev ∈ (dispatch_once db now net adapters svc sn).2.2,
        ev.subscription_id = sub.id ∧ ev.entry_id = e.id)
    ∧ (∀ ev ∈ (dispatch_once db now net adapters svc sn).2.2,
        ev.subscription_id = sub.id → ev.ok = false →
          is_entry_sent (dispatch_once db now net adapters svc sn).1 sub.id
            ev.entry_id = false) := by
  have hno : ¬((collect_new_entries (fetch_all_feeds db now net).2).isEmpty = true) := by
    rw [List.isEmpty_iff]
    exact hnew
  have hcyc1 : (dispatch_once db now net adapters svc sn).1
      = ((get_all_active_subscriptions (fetch_all_feeds db now net).1).foldl
          (subs_step adapters svc sn now) ((fetch_all_feeds db now net).1, 0, [])).1 := by
    unfold dispatch_once
    dsimp only
    rw [if_neg hno]
  have hcyc2 : (dispatch_once db now net adapters svc sn).2.2
      = ((get_all_active_subscriptions (fetch_all_feeds db now net).1).foldl
          (subs_step adapters svc sn now) ((fetch_all_feeds db now net).1, 0, [])).2.2 := by
    unfold dispatch_once
    dsimp only
    rw [if_neg hno]
  have hfeq : fetch_all_feeds db now net
      = (get_all_active_feeds db).foldl (fetch_step now net) (db, []) := rfl
  have F := fetch_loop_extends now net (get_all_active_feeds db) (db, [])
  rw [← hfeq] at F
  have hsubs1 : (fetch_all_feeds db now net).1.subscriptions = db.subscriptions := F.1
  have hsent1 : (fetch_all_feeds db now net).1.sent_entries = db.sent_entries := F.2.1
  obtain ⟨tail, hent1⟩ := F.2.2.1
  have hwf1 : DBWF (fetch_all_feeds db now net).1 := F.2.2.2 hwf
  have hsubmem1 : sub ∈ get_all_active_subscriptions (fetch_all_feeds db now net).1 := by
    unfold get_all_active_subscriptions
    rw [hsubs1]
    exact List.mem_filter.mpr ⟨hsubmem, hact⟩
  have hactnodup : ((get_all_active_subscriptions (fetch_all_feeds db now net).1).map
      (fun s => s.id)).Nodup := by
    unfold get_all_active_subscriptions
    rw [hsubs1]
    exact hwf.subs_nodup.sublist ((List.filter_sublist _).map _)
  obtain ⟨l1, l2, hsplit⟩ := List.append_of_mem hsubmem1
  have hids : ((l1 ++ sub :: l2).map (fun s => s.id)).Nodup := by
    rw [← hsplit]
    exact hactnodup
  rw [List.map_append, List.map_cons, List.nodup_append] at hids
  have hl2ne : ∀ s ∈ l2, s.id ≠ sub.id := by
    intro s hs heq
    have hcons := hids.2.1
    rw [List.nodup_cons] at hcons
    apply hcons.1
    rw [← heq]
    exact List.mem_map_of_mem _ hs
  have hl1ne : ∀ s ∈ l1, s.id ≠ sub.id := by
    intro s hs heq
    exact hids.2.2 (List.mem_map_of_mem _ hs)
      (by rw [heq]; exact List.mem_cons_self _ _)
  obtain ⟨A1, A2, A3, ⟨extra1, hx1, hx1ne⟩⟩ :=
    subs_loop_other adapters svc sn now sub l1
      ((fetch_all_feeds db now net).1, 0, []) hl1ne
  set acc1 := l1.foldl (subs_step adapters svc sn now)
    ((fetch_all_feeds db now net).1, 0, []) with hacc1
  have hfold : (get_all_active_subscriptions (fetch_all_feeds db now net).1).foldl
      (subs_step adapters svc sn now) ((fetch_all_feeds db now net).1, 0, [])
      = l2.foldl (subs_step adapters svc sn now)
          (subs_step adapters svc sn now acc1 sub) := by
    rw [hsplit, List.foldl_append, List.foldl_cons]
  have hkeysA : acc1.1.entries.map entryKey
      = (fetch_all_feeds db now net).1.entries.map entryKey := A2
  have hA3' : ∀ eid, is_entry_sent acc1.1 sub.id eid
      = is_entry_sent (fetch_all_feeds db now net).1 sub.id eid := A3
  have hlk : get_subscription_by_id acc1.1 sub.id = some sub := by
    unfold get_subscription_by_id
    rw [A1]
    show ((fetch_all_feeds db now net).1.subscriptions).find?
      (fun s => s.id == sub.id) = some sub
    rw [hsubs1]
    exact find?_id_self hsubmem hwf.subs_nodup
  have hmem1 : e ∈ (fetch_all_feeds db now net).1.entries := by
    rw [hent1]
    exact List.mem_append_left _ hmem
  have hunsent1 : is_entry_sent (fetch_all_feeds db now net).1 sub.id e.id = false := by
    unfold is_entry_sent
    rw [hsent1]
    exact hunsent
  obtain ⟨e2, he2mem, he2id, he2fid⟩ :=
    exists_entry_of_keys acc1.1 (fetch_all_feeds db now net).1 hkeysA hmem1
  have he2unsent : is_entry_sent acc1.1 sub.id e2.id = false := by
    rw [hA3' e2.id, he2id]
    exact hunsent1
  have hsmallA : (acc1.1.entries.filter (fun x =>
      x.feed_id == sub.feed_id && !(is_entry_sent acc1.1 sub.id x.id))).length ≤ 10 := by
    rw [unsent_filter_length_eq acc1.1 (fetch_all_feeds db now net).1 sub.id
      sub.feed_id hkeysA hA3']
    exact hsmall
  have hin : e2.id ∈ (get_unsent_entries_for_subscription acc1.1 sub.id 10).map
      (fun x => x.id) :=
    mem_unsent_query_of_small acc1.1 sub e2 hlk he2mem (by rw [he2fid, hfid])
      he2unsent hsmallA
  have hDspec := dispatch_to_subscription_spec acc1.1 sub adapters send svc sn now hadapter
  have hDframe := dispatch_to_subscription_frame acc1.1 sub adapters svc sn now
  have hin' : e2.id ∈ (dispatch_to_subscription acc1.1 sub adapters svc sn now).2.2.map
      (fun ev => ev.entry_id) := by
    rw [hDspec.1]
    exact hin
  obtain ⟨ev, hevmem, hevid⟩ := List.mem_map.mp hin'
  obtain ⟨C1, C2, C3, ⟨extra2, hx2, hx2ne⟩⟩ :=
    subs_loop_other adapters svc sn now sub l2
      (subs_step adapters svc sn now acc1 sub) hl2ne
  have hstep1 : (subs_step adapters svc sn now acc1 sub).1
      = (dispatch_to_subscription acc1.1 sub adapters svc sn now).1 := rfl
  have hstep22 : (subs_step adapters svc sn now acc1 sub).2.2
      = acc1.2.2 ++ (dispatch_to_subscription acc1.1 sub adapters svc sn now).2.2 := rfl
  have hevents : (dispatch_once db now net adapters svc sn).2.2
      = acc1.2.2 ++ (dispatch_to_subscription acc1.1 sub adapters svc sn now).2.2
        ++ extra2 := by
    rw [hcyc2, hfold, hx2, hstep22]
  have hdbfin : ∀ eid, is_entry_sent (dispatch_once db now net adapters svc sn).1
      sub.id eid
      = is_entry_sent (dispatch_to_subscription acc1.1 sub adapters svc sn now).1
          sub.id eid := by
    intro eid
    rw [hcyc1, hfold, C3 eid, hstep1]
  refine ⟨⟨ev, ?_, hDframe.2.2.2.2 ev hevmem, hevid.trans he2id⟩, ?_⟩
  · rw [hevents]
    exact List.mem_append_left _ (List.mem_append_right _ hevmem)
  · intro ev' hev' hevsub' hok'
    rw [hevents] at hev'
    rcases List.mem_append.mp hev' with h12 | hX2
    · rcases List.mem_append.mp h12 with hX1 | hND
      · exfalso
        have hmem' : ev' ∈ extra1 := by
          rw [hx1] at hX1
          simpa using hX1
        exact hx1ne ev' hmem' hevsub'
      · have hnod1 : (acc1.1.entries.map (fun x => x.id)).Nodup := by
          have hmapeq : acc1.1.entries.map (fun x => x.id)
              = (fetch_all_feeds db now net).1.entries.map (fun x => x.id) := by
            have h := congrArg (List.map Prod.fst) hkeysA
            rw [List.map_map, List.map_map] at h
            exact h
          rw [hmapeq]
          exact hwf1.entries_nodup
        rw [hdbfin ev'.entry_id]
        exact hDspec.2 hnod1 ev' hND hok'
    · exact absurd hevsub' (hx2ne ev' hX2)

/-- Counterexample to C1 as stated: in cycle 1 (`exCycle1`) the adapter
refuses entry 1 of subscription 1 and no receipt is written; the entry is
still stored — not purged by any janitor — when cycle 2 (`exCycle2`) runs,
yet cycle 2, whose fetch phase collects no new entry because the feed
answers 304, makes no send attempt at all: the entry is not delivered again
on the next dispatch cycle. -/
theorem failed_send_not_retried_next_cycle :
    (exCycle1.2.2.map (fun ev => (ev.subscription_id, ev.entry_id, ev.ok))
        = [(1, 1, false)])
    ∧ (exCycle1.1.sent_entries = [])
    ∧ (exCycle1.1.entries.map (fun e => e.id) = [1])
    ∧ (is_entry_sent exCycle1.1 1 1 = false)
    ∧ (exCycle2.1.entries.map (fun e => e.id) = [1])
    ∧ (exCycle2.1.sent_entries = [])
    ∧ (exCycle2.2.2 = []) :=
  ⟨by decide, by decide, by decide, by decide, by decide, by decide, by decide⟩

/-- A second upstream item, arriving in the retry cycle of the C1 witness. -/
def exData2 : EntryData :=
  { guid := "guid-b", title := "Item B", link := "http://example.org/b",
    published_at := some 200 }

/-- A cycle-2 network serving the new second item. -/
def netServesItem2 : Feed → NetResponse := fun _ =>
  .status 200 "OK"
    { bozo := false, bozo_exception := "", entries := [exData2] } none none

/-- Witness for the amended C1: after the refused send of cycle 1, a cycle
that collects a new entry retries entry 1, and refused sends leave no
receipt. -/
theorem adapter_failure_no_receipt_and_retry_witness :
    (∃ ev ∈ (dispatch_once exCycle1.1 1 netServesItem2 failingAdapters noSvc
        exSourceName).2.2,
        ev.subscription_id = exSub.id ∧ ev.entry_id = exCreatedA.id)
    ∧ (∀ ev ∈ (dispatch_once exCycle1.1 1 netServesItem2 failingAdapters noSvc
        exSourceName).2.2,
        ev.subscription_id = exSub.id → ev.ok = false →
          is_entry_sent (dispatch_once exCycle1.1 1 netServesItem2 failingAdapters
            noSvc exSourceName).1 exSub.id ev.entry_id = false) :=
  adapter_failure_no_receipt_and_retry exCycle1.1 1 netServesItem2 failingAdapters
    (fun _ _ => false) noSvc exSourceName exSub exCreatedA
    ⟨by decide, by decide, by decide⟩ (by decide) (by decide) rfl (by decide)
    (by decide) (by decide) (by decide) (by decide)

end NewsFlow
